import Mathlib

set_option maxRecDepth 100000
set_option maxHeartbeats 2000000

/-!
# Shallow embedding of the DS2482-based OneWire driver (src/src/OneWire.cpp)

The driver commands a DS2482 I2C-to-1-Wire bridge.  We model the bridge as an
oracle `inp : Nat → Nat` giving the value of the k-th byte the driver reads
over I2C, and thread an explicit driver state `W` through every operation.
Every I2C-visible action is recorded in an event trace: a completed command
transaction (the bytes written between `begin()` and `end()`), each byte read,
and each busy-poll pause.  Machine bytes are `Nat` reduced mod 256 exactly
where the C code's `uint8_t` conversions truncate.
-/

namespace OneWireSpec

/-! ### Constants

The numeric constants below are declared in the header `OneWire.h`, which is
not among the repository's source files; only `OneWire.cpp` is.  They are
modelled from the spec's description of the bridge (four registers, seven
commands, the status bits named BUSY/PPD/SD/SBR/TSB/DIR, the SPU config bit,
and the error kinds Timeout/ShortCircuit/ConfigMismatch), with the standard
DS2482-100 datasheet encodings the spec refers to. -/

/-- Modelled from the spec: the set-read-pointer bridge command (`DS2482_COMMAND_SRP`). -/
def DS2482_COMMAND_SRP : Nat := 0xE1

/-- Modelled from the spec: the write-configuration bridge command. -/
def DS2482_COMMAND_WRITECONFIG : Nat := 0xD2

/-- Modelled from the spec: the 1-Wire-reset bridge command. -/
def DS2482_COMMAND_RESETWIRE : Nat := 0xB4

/-- Modelled from the spec: the 1-Wire write-byte bridge command. -/
def DS2482_COMMAND_WRITEBYTE : Nat := 0xA5

/-- Modelled from the spec: the 1-Wire read-byte bridge command. -/
def DS2482_COMMAND_READBYTE : Nat := 0x96

/-- Modelled from the spec: the 1-Wire single-bit bridge command. -/
def DS2482_COMMAND_SINGLEBIT : Nat := 0x87

/-- Modelled from the spec: the 1-Wire triplet bridge command. -/
def DS2482_COMMAND_TRIPLET : Nat := 0x78

/-- Modelled from the spec: the read-pointer code of the status register. -/
def DS2482_POINTER_STATUS : Nat := 0xF0

/-- Modelled from the spec: the read-pointer code of the data register. -/
def DS2482_POINTER_DATA : Nat := 0xE1

/-- Modelled from the spec: the read-pointer code of the configuration register. -/
def DS2482_POINTER_CONFIG : Nat := 0xC3

/-- Modelled from the spec: the busy bit of the status register. -/
def DS2482_STATUS_BUSY : Nat := 0x01

/-- Modelled from the spec: the presence-pulse-detected bit of the status register. -/
def DS2482_STATUS_PPD : Nat := 0x02

/-- Modelled from the spec: the short-detected bit of the status register. -/
def DS2482_STATUS_SD : Nat := 0x04

/-- Modelled from the spec: the single-bit-result bit of the status register. -/
def DS2482_STATUS_SBR : Nat := 0x20

/-- Modelled from the spec: the triplet-second-bit (complement) bit of the status register. -/
def DS2482_STATUS_TSB : Nat := 0x40

/-- Modelled from the spec: the triplet-chosen-direction bit of the status register. -/
def DS2482_STATUS_DIR : Nat := 0x80

/-- Modelled from the spec: the strong-pullup bit of the configuration register. -/
def DS2482_CONFIG_SPU : Nat := 0x04

/-- Modelled from the spec: the `Timeout` error kind recorded in `mError`. -/
def DS2482_ERROR_TIMEOUT : Nat := 1

/-- Modelled from the spec: the `ShortCircuit` error kind recorded in `mError`. -/
def DS2482_ERROR_SHORT : Nat := 2

/-- Modelled from the spec: the `ConfigMismatch` error kind recorded in `mError`. -/
def DS2482_ERROR_CONFIG : Nat := 4

/-- Modelled from the spec: the 1-Wire search-ROM command byte (`WIRE_COMMAND_SEARCH`). -/
def WIRE_COMMAND_SEARCH : Nat := 0xF0

/-- Modelled from the spec: the 1-Wire skip-ROM command byte. -/
def WIRE_COMMAND_SKIP : Nat := 0xCC

/-- Modelled from the spec: the 1-Wire match-ROM (select) command byte. -/
def WIRE_COMMAND_SELECT : Nat := 0x55

/-! ### Driver state and the I2C transport -/

/-- One bridge-visible event: a completed I2C command transaction (`cmd`
carries the bytes written between `begin()` and `end()`), one byte read from
the bridge (`rd`), or a busy-poll pause in microseconds (`delay`). -/
inductive Ev where
  | cmd (bytes : List Nat)
  | rd (b : Nat)
  | delay (us : Nat)
deriving DecidableEq

/-- The driver's mutable state: `err` mirrors `mError`, `sld` is
`searchLastDiscrepancy`, `sldf` is `searchLastDeviceFlag` (a `uint8_t` used as
a boolean), `addr` is the 8-byte `searchAddress` buffer, `buf` the bytes
written so far in the currently open I2C transaction, `pos` the number of
bytes read from the bridge so far, and `tr` the event trace. -/
@[ext]
structure W where
  err : Nat
  sld : Nat
  sldf : Nat
  addr : List Nat
  buf : List Nat
  pos : Nat
  tr : List Ev
deriving DecidableEq

/-- `OneWire::begin()`: open an I2C transaction (`Wire.beginTransmission`). -/
def beginT (w : W) : W := { w with buf := [] }

/-- `OneWire::writeByte(data)`: queue one byte in the open transaction
(`Wire.write`); the `uint8_t` parameter truncates mod 256. -/
def writeByte (w : W) (data : Nat) : W := { w with buf := w.buf ++ [data % 256] }

/-- `OneWire::end()`: close the transaction (`Wire.endTransmission`), making
its bytes visible to the bridge as one command. -/
def endT (w : W) : W := { w with buf := [], tr := w.tr ++ [Ev.cmd w.buf] }

/-- `OneWire::readByte()`: request and read one byte from the bridge; the
oracle `inp` supplies the value of the k-th byte read. -/
def readByte (inp : Nat → Nat) (w : W) : Nat × W :=
  (inp w.pos % 256,
   { w with pos := w.pos + 1, tr := w.tr ++ [Ev.rd (inp w.pos % 256)] })

/-- `delayMicroseconds(us)`: a blocking pause, recorded in the trace. -/
def delayMicro (w : W) (us : Nat) : W := { w with tr := w.tr ++ [Ev.delay us] }

/-- `OneWire::setReadPointer` (OneWire.cpp:86-91). -/
def setReadPointer (w : W) (readPointer : Nat) : W :=
  endT (writeByte (writeByte (beginT w) DS2482_COMMAND_SRP) readPointer)

/-- `OneWire::readStatus` (OneWire.cpp:97-100). -/
def readStatus (inp : Nat → Nat) (w : W) : Nat × W :=
  readByte inp (setReadPointer w DS2482_POINTER_STATUS)

/-- `OneWire::readData` (OneWire.cpp:106-109). -/
def readData (inp : Nat → Nat) (w : W) : Nat × W :=
  readByte inp (setReadPointer w DS2482_POINTER_DATA)

/-- `OneWire::readConfig` (OneWire.cpp:115-118). -/
def readConfig (inp : Nat → Nat) (w : W) : Nat × W :=
  readByte inp (setReadPointer w DS2482_POINTER_CONFIG)

/-! ### Busy synchronizer -/

/-- The retry loop of `OneWire::waitOnBusy` (OneWire.cpp:163-173): read the
status register; stop when the busy bit clears; otherwise pause 20 us and try
again, up to `fuel` reads in total (the C loop counts `i = 1000` down to 1). -/
def waitLoop (inp : Nat → Nat) : Nat → W → Nat × W
  | 0, w => (0, w)
  | fuel + 1, w =>
    let r := readStatus inp w
    if r.1 &&& DS2482_STATUS_BUSY = 0 then r
    else if fuel = 0 then (r.1, delayMicro r.2 20)
    else waitLoop inp fuel (delayMicro r.2 20)

/-- `OneWire::waitOnBusy` (OneWire.cpp:159-182): poll up to 1000 times, then
record `Timeout` if the busy bit is still set in the last-read status; the
last-read status byte is returned either way. -/
def waitOnBusy (inp : Nat → Nat) (w : W) : Nat × W :=
  let r := waitLoop inp 1000 w
  if r.1 &&& DS2482_STATUS_BUSY ≠ 0 then
    (r.1, { r.2 with err := DS2482_ERROR_TIMEOUT })
  else r

/-! ### Configuration controller -/

/-- The payload byte of a configuration write (OneWire.cpp:195):
`config | (~config) << 4` evaluated in C `int` arithmetic and truncated to
`uint8_t`; the low 8 bits of `~config` are `255 - config`. -/
def configPayload (config : Nat) : Nat :=
  ((config % 256) ||| ((255 - config % 256) <<< 4)) % 256

/-- `OneWire::writeConfig` (OneWire.cpp:185-206): wait idle, issue the
write-configuration command with `configPayload`, read back, and record
`ConfigMismatch` when the byte read back differs from the value. -/
def writeConfig (inp : Nat → Nat) (c : Nat) (w : W) : W :=
  let config := c % 256
  let w1 := (waitOnBusy inp w).2
  let w2 := endT (writeByte (writeByte (beginT w1) DS2482_COMMAND_WRITECONFIG)
    (configPayload config))
  let r := readByte inp w2
  if r.1 ≠ config then { r.2 with err := DS2482_ERROR_CONFIG } else r.2

/-- The C logical-not operator `!`: nonzero maps to 0 and zero to 1. -/
def logicalNot (x : Nat) : Nat := if x = 0 then 1 else 0

/-- The value `setStrongPullup` passes to `writeConfig` (OneWire.cpp:139):
`readConfig() | DS2482_CONFIG_SPU`. -/
def setSpuArg (config : Nat) : Nat := config ||| DS2482_CONFIG_SPU

/-- The value `clearStrongPullup` passes to `writeConfig` (OneWire.cpp:149):
`readConfig() & !DS2482_CONFIG_SPU`, with C's logical not `!`. -/
def clearSpuArg (config : Nat) : Nat := config &&& logicalNot DS2482_CONFIG_SPU

/-- `OneWire::setStrongPullup` (OneWire.cpp:138-140). -/
def setStrongPullup (inp : Nat → Nat) (w : W) : W :=
  let r := readConfig inp w
  writeConfig inp (setSpuArg r.1) r.2

/-- `OneWire::clearStrongPullup` (OneWire.cpp:148-150). -/
def clearStrongPullup (inp : Nat → Nat) (w : W) : W :=
  let r := readConfig inp w
  writeConfig inp (clearSpuArg r.1) r.2

/-! ### Bus reset -/

/-- The command issue step of `OneWire::wireReset` (OneWire.cpp:230-232). -/
def wireResetIssue (w : W) : W :=
  endT (writeByte (beginT w) DS2482_COMMAND_RESETWIRE)

/-- The preparation steps of `OneWire::wireReset` (OneWire.cpp:218-228):
wait idle, clear the strong pullup, wait idle again. -/
def wireResetPre (inp : Nat → Nat) (w : W) : W :=
  (waitOnBusy inp (clearStrongPullup inp (waitOnBusy inp w).2)).2

/-- `OneWire::wireReset` (OneWire.cpp:217-241): prepare, issue the
1-Wire-reset command, wait idle capturing the status, record `ShortCircuit`
when the SD bit is set, and return whether the PPD bit is set. -/
def wireReset (inp : Nat → Nat) (w : W) : Bool × W :=
  let w1 := wireResetIssue (wireResetPre inp w)
  let r := waitOnBusy inp w1
  let w2 := if r.1 &&& DS2482_STATUS_SD ≠ 0 then
    { r.2 with err := DS2482_ERROR_SHORT } else r.2
  (if r.1 &&& DS2482_STATUS_PPD ≠ 0 then true else false, w2)

/-! ### Bit/byte transaction engine -/

/-- `OneWire::wireWriteByte` (OneWire.cpp:253-264). -/
def wireWriteByte (inp : Nat → Nat) (data power : Nat) (w : W) : W :=
  let w1 := (waitOnBusy inp w).2
  let w2 := if power ≠ 0 then setStrongPullup inp w1 else w1
  endT (writeByte (writeByte (beginT w2) DS2482_COMMAND_WRITEBYTE) data)

/-- The inline strong-pullup configuration sequence of `OneWire::wireWriteBytes`
(OneWire.cpp:279-290): read the configuration register, set SPU, write the
configuration back (nibble-plus-complement payload) and verify the readback,
all inside the open transaction. -/
def spuInlineWrite (inp : Nat → Nat) (w : W) : W :=
  let wa := writeByte (writeByte w DS2482_COMMAND_SRP) DS2482_POINTER_CONFIG
  let r := readByte inp wa
  let cfgreg := r.1 ||| DS2482_CONFIG_SPU
  let wb := writeByte (writeByte r.2 DS2482_COMMAND_WRITECONFIG)
    (configPayload cfgreg)
  let r2 := readByte inp wb
  if r2.1 ≠ cfgreg then { r2.2 with err := DS2482_ERROR_CONFIG } else r2.2

/-- The per-byte body of `OneWire::wireWriteBytes` (OneWire.cpp:276-296),
streaming bytes in one open transaction, re-asserting the strong pullup
inline before each byte when `power` is nonzero. -/
def wireWriteBytesBody (inp : Nat → Nat) (power : Nat) : List Nat → W → W
  | [], w => w
  | b :: rest, w =>
    let w1 := if power ≠ 0 then spuInlineWrite inp w else w
    wireWriteBytesBody inp power rest
      (writeByte (writeByte w1 DS2482_COMMAND_WRITEBYTE) b)

/-- `OneWire::wireWriteBytes` (OneWire.cpp:269-300). -/
def wireWriteBytes (inp : Nat → Nat) (dbuf : List Nat) (power : Nat) (w : W) : W :=
  let w1 := (waitOnBusy inp w).2
  endT (wireWriteBytesBody inp power dbuf (beginT w1))

/-- `OneWire::wireReadByte` (OneWire.cpp:305-315). -/
def wireReadByte (inp : Nat → Nat) (w : W) : Nat × W :=
  let w1 := (waitOnBusy inp w).2
  let w2 := endT (writeByte (beginT w1) DS2482_COMMAND_READBYTE)
  let w3 := (waitOnBusy inp w2).2
  readData inp w3

/-- `OneWire::wireWriteBit` (OneWire.cpp:330-338). -/
def wireWriteBit (inp : Nat → Nat) (data power : Nat) (w : W) : W :=
  let w1 := (waitOnBusy inp w).2
  let w2 := if power ≠ 0 then setStrongPullup inp w1 else w1
  endT (writeByte (writeByte (beginT w2) DS2482_COMMAND_SINGLEBIT)
    (if data ≠ 0 then 0x80 else 0x00))

/-- `OneWire::wireReadBit` (OneWire.cpp:341-345). -/
def wireReadBit (inp : Nat → Nat) (w : W) : Nat × W :=
  let w1 := wireWriteBit inp 1 0 w
  let r := waitOnBusy inp w1
  (if r.1 &&& DS2482_STATUS_SBR ≠ 0 then 1 else 0, r.2)

/-- `OneWire::wireSkip` (OneWire.cpp:348-350). -/
def wireSkip (inp : Nat → Nat) (w : W) : W :=
  wireWriteByte inp WIRE_COMMAND_SKIP 0 w

/-- `OneWire::wireSelect` (OneWire.cpp:352-356). -/
def wireSelect (inp : Nat → Nat) (rom : List Nat) (w : W) : W :=
  (List.range 8).foldl (fun wa i => wireWriteByte inp (rom.getD i 0) 0 wa)
    (wireWriteByte inp WIRE_COMMAND_SELECT 0 w)

/-! ### ROM search state machine -/

/-- `OneWire::wireResetSearch` (OneWire.cpp:359-367): clear the discrepancy
cursor, the last-device flag, and the 8 bytes of `searchAddress`. -/
def wireResetSearch (w : W) : W :=
  { w with sld := 0, sldf := 0,
           addr := (List.range 8).foldl (fun a i => a.set i 0) w.addr }

/-- Bit `i` of the 64-bit `searchAddress` buffer, as the C code reads it:
`searchAddress[i / 8] & (1 << (i % 8))` (OneWire.cpp:387-391). -/
def bitOf (addr : List Nat) (i : Nat) : Nat :=
  addr.getD (i / 8) 0 &&& (1 <<< (i % 8))

/-- The direction forced into the triplet command at bit position `i`
(OneWire.cpp:390-394): the recorded bit when `i < searchLastDiscrepancy`,
1 when `i == searchLastDiscrepancy`, else 0. -/
def dirForce (sld : Nat) (addr : List Nat) (i : Nat) : Nat :=
  if i < sld then bitOf addr i else if i = sld then 1 else 0

/-- `searchAddress[searchByte] |= searchBit` (OneWire.cpp:417), with the
`uint8_t` store truncating mod 256. -/
def setBit (addr : List Nat) (i : Nat) : List Nat :=
  addr.set (i / 8) ((addr.getD (i / 8) 0 ||| (1 <<< (i % 8))) % 256)

/-- `searchAddress[searchByte] &= ~searchBit` (OneWire.cpp:419); masking with
the low 8 bits of `~searchBit` agrees with the C `int` arithmetic on
`uint8_t` values. -/
def clearBit (addr : List Nat) (i : Nat) : List Nat :=
  addr.set (i / 8) (addr.getD (i / 8) 0 &&& (255 ^^^ (1 <<< (i % 8))))

/-- One bit position of the search loop up to reading the triplet status
(OneWire.cpp:390-402): compute the direction to force from the current
state, wait idle, issue the triplet command with payload 0x80 or 0x00, and
wait idle again capturing the resulting status. -/
def tripletStep (inp : Nat → Nat) (i : Nat) (w : W) : Nat × W :=
  let direction := dirForce w.sld w.addr i
  let w1 := (waitOnBusy inp w).2
  let w2 := endT (writeByte (writeByte (beginT w1) DS2482_COMMAND_TRIPLET)
    (if direction ≠ 0 then 0x80 else 0x00))
  waitOnBusy inp w2

/-- The 64-iteration loop of `OneWire::wireSearch` (OneWire.cpp:386-421):
force a direction, issue the triplet command, read the status, abort when
both SBR and TSB are set, record the last genuine-discrepancy position in
`last_zero`, and store the chosen direction as bit `i` of `searchAddress`.
`none` is the aborted early return. -/
def searchLoop (inp : Nat → Nat) : Nat → Nat → Nat → W → Option Nat × W
  | 0, _, last_zero, w => (some last_zero, w)
  | fuel + 1, i, last_zero, w =>
    let r := tripletStep inp i w
    let id := r.1 &&& DS2482_STATUS_SBR
    let comp_id := r.1 &&& DS2482_STATUS_TSB
    let dir := r.1 &&& DS2482_STATUS_DIR
    if id ≠ 0 ∧ comp_id ≠ 0 then (none, r.2)
    else
      let lz := if id = 0 ∧ comp_id = 0 ∧ dir = 0 then i else last_zero
      let w3 := if dir ≠ 0 then { r.2 with addr := setBit r.2.addr i }
                else { r.2 with addr := clearBit r.2.addr i }
      searchLoop inp fuel (i + 1) lz w3

/-- The prefix of a search pass after a successful reset (OneWire.cpp:382-421):
wait idle, issue the search-ROM byte, and run the 64-position loop from
position 0 with `last_zero = 0`. -/
def searchRun (inp : Nat → Nat) (w : W) : Option Nat × W :=
  searchLoop inp 64 0 0
    (wireWriteByte inp WIRE_COMMAND_SEARCH 0 (waitOnBusy inp (wireReset inp w).2).2)

/-- `OneWire::wireSearch` (OneWire.cpp:370-434).  Takes the caller's output
`address` array and returns (result, output array, state): result 0 with the
array untouched when the last-device flag is set, when no presence pulse is
detected, or when the loop aborts; otherwise 1 with the fresh
`searchAddress` copied out and the search bookkeeping updated. -/
def wireSearch (inp : Nat → Nat) (address : List Nat) (w : W) : Nat × List Nat × W :=
  if w.sldf ≠ 0 then (0, address, w)
  else
    let r := wireReset inp w
    if r.1 = false then (0, address, r.2)
    else
      let s := searchRun inp w
      match s.1 with
      | none => (0, address, s.2)
      | some last_zero =>
        let w3 := { s.2 with sld := last_zero }
        let w4 := if last_zero = 0 then { w3 with sldf := 1 } else w3
        (1, (List.range 8).map (fun i => w4.addr.getD i 0), w4)

/-! ### Checksum engine -/

/-- The Dallas CRC-8 lookup table `dscrc_table` (OneWire.cpp:472-490). -/
def dscrc_table : List Nat := [
  0x00, 0x5E, 0xBC, 0xE2, 0x61, 0x3F, 0xDD, 0x83, 0xC2, 0x9C, 0x7E, 0x20, 0xA3, 0xFD, 0x1F, 0x41,
  0x9D, 0xC3, 0x21, 0x7F, 0xFC, 0xA2, 0x40, 0x1E, 0x5F, 0x01, 0xE3, 0xBD, 0x3E, 0x60, 0x82, 0xDC,
  0x23, 0x7D, 0x9F, 0xC1, 0x42, 0x1C, 0xFE, 0xA0, 0xE1, 0xBF, 0x5D, 0x03, 0x80, 0xDE, 0x3C, 0x62,
  0xBE, 0xE0, 0x02, 0x5C, 0xDF, 0x81, 0x63, 0x3D, 0x7C, 0x22, 0xC0, 0x9E, 0x1D, 0x43, 0xA1, 0xFF,
  0x46, 0x18, 0xFA, 0xA4, 0x27, 0x79, 0x9B, 0xC5, 0x84, 0xDA, 0x38, 0x66, 0xE5, 0xBB, 0x59, 0x07,
  0xDB, 0x85, 0x67, 0x39, 0xBA, 0xE4, 0x06, 0x58, 0x19, 0x47, 0xA5, 0xFB, 0x78, 0x26, 0xC4, 0x9A,
  0x65, 0x3B, 0xD9, 0x87, 0x04, 0x5A, 0xB8, 0xE6, 0xA7, 0xF9, 0x1B, 0x45, 0xC6, 0x98, 0x7A, 0x24,
  0xF8, 0xA6, 0x44, 0x1A, 0x99, 0xC7, 0x25, 0x7B, 0x3A, 0x64, 0x86, 0xD8, 0x5B, 0x05, 0xE7, 0xB9,
  0x8C, 0xD2, 0x30, 0x6E, 0xED, 0xB3, 0x51, 0x0F, 0x4E, 0x10, 0xF2, 0xAC, 0x2F, 0x71, 0x93, 0xCD,
  0x11, 0x4F, 0xAD, 0xF3, 0x70, 0x2E, 0xCC, 0x92, 0xD3, 0x8D, 0x6F, 0x31, 0xB2, 0xEC, 0x0E, 0x50,
  0xAF, 0xF1, 0x13, 0x4D, 0xCE, 0x90, 0x72, 0x2C, 0x6D, 0x33, 0xD1, 0x8F, 0x0C, 0x52, 0xB0, 0xEE,
  0x32, 0x6C, 0x8E, 0xD0, 0x53, 0x0D, 0xEF, 0xB1, 0xF0, 0xAE, 0x4C, 0x12, 0x91, 0xCF, 0x2D, 0x73,
  0xCA, 0x94, 0x76, 0x28, 0xAB, 0xF5, 0x17, 0x49, 0x08, 0x56, 0xB4, 0xEA, 0x69, 0x37, 0xD5, 0x8B,
  0x57, 0x09, 0xEB, 0xB5, 0x36, 0x68, 0x8A, 0xD4, 0x95, 0xCB, 0x29, 0x77, 0xF4, 0xAA, 0x48, 0x16,
  0xE9, 0xB7, 0x55, 0x0B, 0x88, 0xD6, 0x34, 0x6A, 0x2B, 0x75, 0x97, 0xC9, 0x4A, 0x14, 0xF6, 0xA8,
  0x74, 0x2A, 0xC8, 0x96, 0x15, 0x4B, 0xA9, 0xF7, 0xB6, 0xE8, 0x0A, 0x54, 0xD7, 0x89, 0x6B, 0x35]

/-- The table-lookup `OneWire::crc8` (OneWire.cpp:501-513):
`crc = dscrc_table[crc ^ *addr++]` folded over the input bytes, accumulator
starting at 0. -/
def crc8_table (addr : List Nat) : Nat :=
  addr.foldl (fun crc b => dscrc_table.getD (crc ^^^ b) 0) 0

/-- The 8-round inner loop of the direct `OneWire::crc8` (OneWire.cpp:525-534):
LSB-first processing with feedback polynomial 0x8C. -/
def crc8Rounds : Nat → Nat → Nat → Nat
  | 0, crc, _ => crc
  | n + 1, crc, inbyte =>
    let mix := (crc ^^^ inbyte) &&& 1
    let crc1 := crc >>> 1
    let crc2 := if mix ≠ 0 then crc1 ^^^ 0x8C else crc1
    crc8Rounds n crc2 (inbyte >>> 1)

/-- The direct bit-by-bit `OneWire::crc8` (OneWire.cpp:520-538), accumulator
starting at 0. -/
def crc8_direct (addr : List Nat) : Nat :=
  addr.foldl (fun crc b => crc8Rounds 8 crc b) 0

/-! ### Derived observations used in the claims -/

/-- The oracle never reports the bridge busy: every byte the driver reads has
the busy bit clear, so every busy-wait returns after its first status read. -/
def NB (inp : Nat → Nat) : Prop :=
  ∀ k, inp k % 256 &&& DS2482_STATUS_BUSY = 0

/-- The payload bytes of the triplet commands of a trace, in order. -/
def tripletsOf : List Ev → List Nat
  | [] => []
  | Ev.cmd [c, p] :: rest =>
    if c = DS2482_COMMAND_TRIPLET then p :: tripletsOf rest else tripletsOf rest
  | Ev.cmd _ :: rest => tripletsOf rest
  | Ev.rd _ :: rest => tripletsOf rest
  | Ev.delay _ :: rest => tripletsOf rest

/-- The status byte consumed by loop iteration `j` of a search pass whose
loop starts with `p` bytes already read, under a never-busy oracle: each
iteration consumes one status byte for its leading busy-wait and one for the
busy-wait that captures the triplet result. -/
def statusAt (inp : Nat → Nat) (p j : Nat) : Nat := inp (p + 2 * j + 1) % 256

/-- A triplet status with id clear, complement-id clear and chosen direction
0: a genuine discrepancy position (OneWire.cpp:411). -/
def discAt (s : Nat) : Bool :=
  (s &&& DS2482_STATUS_SBR == 0) && (s &&& DS2482_STATUS_TSB == 0) &&
  (s &&& DS2482_STATUS_DIR == 0)

/-- A triplet status with both the sampled bit and its complement set, which
aborts the pass (OneWire.cpp:408). -/
def abortAt (s : Nat) : Bool :=
  (s &&& DS2482_STATUS_SBR != 0) && (s &&& DS2482_STATUS_TSB != 0)

/-- A fresh driver state: no error, fresh search state, nothing read. -/
def W0 : W := ⟨0, 0, 0, List.replicate 8 0, [], 0, []⟩

/-! ### Concrete bridge oracles used to exhibit runs -/

/-- A bridge whose reset status (the 6th byte read) has SD set and PPD clear:
a short circuit with no presence pulse, never busy. -/
def shortStatusInp : Nat → Nat := fun k => if k = 5 then 4 else 0

/-- A bridge whose configuration register reads back 0x01 (the APU bit),
never busy. -/
def apuInp : Nat → Nat := fun k => if k = 0 then 1 else 0

/-- A bridge that echoes 0x00 to every read: in particular a configuration
write of any nonzero value reads back 0x00. -/
def echoZeroInp : Nat → Nat := fun _ => 0

/-- A search-pass bridge: presence pulse on reset, and every triplet status
0x80 (direction taken 1, no discrepancy, no abort), never busy. -/
def allOnesInp : Nat → Nat :=
  fun k => if k < 6 then (if k = 5 then 2 else 0) else 128

/-- A search-pass bridge whose only genuine-discrepancy status (0x00) is at
bit position 0 (the status byte read at index 9); every later triplet status
is 0x80, never busy. -/
def discZeroInp : Nat → Nat :=
  fun k => if k = 5 then 2 else if 11 ≤ k ∧ k % 2 = 1 then 128 else 0

/-- A search-pass bridge with genuine-discrepancy statuses (0x00) at bit
positions 2 and 5 (status bytes read at indices 13 and 19); every other
triplet status is 0x80, never busy. -/
def discTwoFiveInp : Nat → Nat :=
  fun k => if k = 5 then 2 else if k = 13 ∨ k = 19 then 0
    else if 9 ≤ k ∧ k % 2 = 1 then 128 else 0

/-- A search-pass bridge whose triplet status at bit position 3 (the status
byte read at index 15) has both SBR and TSB set (0x60), aborting the pass;
earlier triplet statuses are 0x80, never busy. -/
def abortThreeInp : Nat → Nat :=
  fun k => if k = 5 then 2 else if k = 15 then 96
    else if 9 ≤ k ∧ k % 2 = 1 then 128 else 0

/-- Events a busy-wait can append: the status-read-pointer command, a read
byte, or a pause. -/
def statusPollEv (e : Ev) : Prop :=
  e = Ev.cmd [DS2482_COMMAND_SRP, DS2482_POINTER_STATUS] ∨
  (∃ b, e = Ev.rd b) ∨ (∃ u, e = Ev.delay u)

/-- An event that is neither a triplet command nor the 1-Wire-reset command. -/
def benignEv (e : Ev) : Prop :=
  (∀ p, e ≠ Ev.cmd [DS2482_COMMAND_TRIPLET, p]) ∧
  e ≠ Ev.cmd [DS2482_COMMAND_RESETWIRE]

/-! ## Busy-synchronizer lemmas -/

theorem waitLoop_succ (inp : Nat → Nat) (f : Nat) (w : W) :
    waitLoop inp (f + 1) w =
      if (readStatus inp w).1 &&& DS2482_STATUS_BUSY = 0 then readStatus inp w
      else if f = 0 then ((readStatus inp w).1, delayMicro (readStatus inp w).2 20)
      else waitLoop inp f (delayMicro (readStatus inp w).2 20) := rfl

theorem readStatus_fst (inp : Nat → Nat) (w : W) :
    (readStatus inp w).1 = inp w.pos % 256 := rfl

theorem waitLoop_run (inp : Nat → Nat) :
    ∀ (f : Nat) (w : W), ∃ n : Nat,
      (waitLoop inp (f + 1) w).2.pos = w.pos + n ∧ 1 ≤ n ∧ n ≤ f + 1 ∧
      (waitLoop inp (f + 1) w).1 = inp (w.pos + n - 1) % 256 ∧
      (∀ j, j + 1 < n → inp (w.pos + j) % 256 &&& DS2482_STATUS_BUSY ≠ 0) ∧
      (n < f + 1 → (waitLoop inp (f + 1) w).1 &&& DS2482_STATUS_BUSY = 0) ∧
      ((waitLoop inp (f + 1) w).1 &&& DS2482_STATUS_BUSY ≠ 0 → n = f + 1) ∧
      (waitLoop inp (f + 1) w).2.err = w.err ∧
      (waitLoop inp (f + 1) w).2.sld = w.sld ∧
      (waitLoop inp (f + 1) w).2.sldf = w.sldf ∧
      (waitLoop inp (f + 1) w).2.addr = w.addr := by
  intro f
  induction f with
  | zero =>
    intro w
    refine ⟨1, ?_⟩
    rw [waitLoop_succ]
    by_cases h : inp w.pos % 256 &&& DS2482_STATUS_BUSY = 0
    · simp [readStatus_fst, h, readStatus, readByte, setReadPointer, writeByte,
        beginT, endT]
    · simp [readStatus_fst, h, readStatus, readByte, setReadPointer, writeByte,
        beginT, endT, delayMicro]
  | succ f ih =>
    intro w
    rw [waitLoop_succ]
    by_cases h : inp w.pos % 256 &&& DS2482_STATUS_BUSY = 0
    · refine ⟨1, ?_⟩
      simp [readStatus_fst, h, readStatus, readByte, setReadPointer, writeByte,
        beginT, endT]
    · obtain ⟨n, h1, h2, h3, h4, h5, h6, h7, h8, h9, h10, h11⟩ :=
        ih (delayMicro (readStatus inp w).2 20)
      refine ⟨n + 1, ?_⟩
      rw [readStatus_fst, if_neg h, if_neg (Nat.succ_ne_zero f)]
      rw [show (delayMicro (readStatus inp w).2 20).pos = w.pos + 1 from rfl]
        at h1 h4 h5
      rw [show (delayMicro (readStatus inp w).2 20).err = w.err from rfl] at h8
      rw [show (delayMicro (readStatus inp w).2 20).sld = w.sld from rfl] at h9
      rw [show (delayMicro (readStatus inp w).2 20).sldf = w.sldf from rfl] at h10
      rw [show (delayMicro (readStatus inp w).2 20).addr = w.addr from rfl] at h11
      refine ⟨by omega, by omega, by omega, ?_, ?_, ?_, ?_, h8, h9, h10, h11⟩
      · rw [h4]
        congr 2
        omega
      · intro j hj
        rcases Nat.eq_zero_or_pos j with hj0 | hj1
        · subst hj0
          simpa using h
        · have hx := h5 (j - 1) (by omega)
          have he : w.pos + 1 + (j - 1) = w.pos + j := by omega
          rw [he] at hx
          exact hx
      · intro hlt
        exact h6 (by omega)
      · intro hb
        have := h7 hb
        omega

theorem waitLoop_tr (inp : Nat → Nat) :
    ∀ (f : Nat) (w : W), ∃ t, (waitLoop inp f w).2.tr = w.tr ++ t ∧
      ∀ e ∈ t, statusPollEv e := by
  intro f
  induction f with
  | zero =>
    intro w
    exact ⟨[], (List.append_nil w.tr).symm, by simp⟩
  | succ f ih =>
    intro w
    rw [waitLoop_succ]
    by_cases h : inp w.pos % 256 &&& DS2482_STATUS_BUSY = 0
    · rw [readStatus_fst, if_pos h]
      refine ⟨[Ev.cmd [DS2482_COMMAND_SRP, DS2482_POINTER_STATUS],
               Ev.rd (inp w.pos % 256)], ?_, ?_⟩
      · simp [readStatus, readByte, setReadPointer, writeByte, beginT, endT,
          DS2482_COMMAND_SRP, DS2482_POINTER_STATUS]
      · intro e he
        simp at he
        rcases he with he | he
        · exact Or.inl (by rw [he])
        · exact Or.inr (Or.inl ⟨_, by rw [he]⟩)
    · rw [readStatus_fst, if_neg h]
      have base : ∀ e ∈ [Ev.cmd [DS2482_COMMAND_SRP, DS2482_POINTER_STATUS],
          Ev.rd (inp w.pos % 256), Ev.delay 20], statusPollEv e := by
        intro e he
        simp at he
        rcases he with he | he | he
        · exact Or.inl (by rw [he])
        · exact Or.inr (Or.inl ⟨_, by rw [he]⟩)
        · exact Or.inr (Or.inr ⟨_, by rw [he]⟩)
      have htr : (delayMicro (readStatus inp w).2 20).tr =
          w.tr ++ [Ev.cmd [DS2482_COMMAND_SRP, DS2482_POINTER_STATUS],
                   Ev.rd (inp w.pos % 256), Ev.delay 20] := by
        simp [readStatus, readByte, setReadPointer, writeByte, beginT, endT,
          delayMicro, DS2482_COMMAND_SRP, DS2482_POINTER_STATUS]
      by_cases hf : f = 0
      · subst hf
        rw [if_pos rfl]
        exact ⟨[Ev.cmd [DS2482_COMMAND_SRP, DS2482_POINTER_STATUS],
                Ev.rd (inp w.pos % 256), Ev.delay 20], htr, base⟩
      · rw [if_neg hf]
        obtain ⟨t, ht1, ht2⟩ := ih (delayMicro (readStatus inp w).2 20)
        rw [htr] at ht1
        refine ⟨[Ev.cmd [DS2482_COMMAND_SRP, DS2482_POINTER_STATUS],
                 Ev.rd (inp w.pos % 256), Ev.delay 20] ++ t, ?_, ?_⟩
        · rw [ht1, List.append_assoc]
        · intro e he
          rcases List.mem_append.1 he with he | he
          · exact base e he
          · exact ht2 e he

theorem waitOnBusy_eq (inp : Nat → Nat) (w : W) :
    waitOnBusy inp w =
      if (waitLoop inp (999 + 1) w).1 &&& DS2482_STATUS_BUSY ≠ 0 then
        ((waitLoop inp (999 + 1) w).1,
         { (waitLoop inp (999 + 1) w).2 with err := DS2482_ERROR_TIMEOUT })
      else waitLoop inp (999 + 1) w := rfl

theorem waitOnBusy_frame (inp : Nat → Nat) (w : W) :
    (waitOnBusy inp w).2.sld = w.sld ∧ (waitOnBusy inp w).2.sldf = w.sldf ∧
    (waitOnBusy inp w).2.addr = w.addr := by
  obtain ⟨n, h1, h2, h3, h4, h5, h6, h7, h8, h9, h10, h11⟩ := waitLoop_run inp 999 w
  rw [waitOnBusy_eq]
  by_cases hb : (waitLoop inp (999 + 1) w).1 &&& DS2482_STATUS_BUSY ≠ 0
  · rw [if_pos hb]
    exact ⟨h9, h10, h11⟩
  · rw [if_neg hb]
    exact ⟨h9, h10, h11⟩

theorem waitOnBusy_tr (inp : Nat → Nat) (w : W) :
    ∃ t, (waitOnBusy inp w).2.tr = w.tr ++ t ∧ ∀ e ∈ t, statusPollEv e := by
  obtain ⟨t, ht1, ht2⟩ := waitLoop_tr inp (999 + 1) w
  rw [waitOnBusy_eq]
  by_cases hb : (waitLoop inp (999 + 1) w).1 &&& DS2482_STATUS_BUSY ≠ 0
  · rw [if_pos hb]
    exact ⟨t, ht1, ht2⟩
  · rw [if_neg hb]
    exact ⟨t, ht1, ht2⟩

/-! ## Claim theorems: busy synchronizer, reset, strong pullup -/

/-- Claim C6: `waitOnBusy` reads the status register at most 1000 times
(the read count is the cursor advance), stops as soon as a read has the busy
bit clear (every read but the last is busy, and an early stop's last read is
clear), returns the last-read status byte, and records `Timeout` exactly when
the last-read status is still busy, which can only happen with the full 1000
reads. -/
theorem c6_wait_on_busy_bounded_polling (inp : Nat → Nat) (w : W) :
    1 ≤ (waitOnBusy inp w).2.pos - w.pos ∧
    (waitOnBusy inp w).2.pos - w.pos ≤ 1000 ∧
    (waitOnBusy inp w).1 =
      inp (w.pos + ((waitOnBusy inp w).2.pos - w.pos) - 1) % 256 ∧
    (∀ j, j + 1 < (waitOnBusy inp w).2.pos - w.pos →
      inp (w.pos + j) % 256 &&& DS2482_STATUS_BUSY ≠ 0) ∧
    ((waitOnBusy inp w).2.pos - w.pos < 1000 →
      (waitOnBusy inp w).1 &&& DS2482_STATUS_BUSY = 0) ∧
    ((waitOnBusy inp w).1 &&& DS2482_STATUS_BUSY ≠ 0 →
      (waitOnBusy inp w).2.pos - w.pos = 1000) ∧
    (waitOnBusy inp w).2.err =
      (if (waitOnBusy inp w).1 &&& DS2482_STATUS_BUSY ≠ 0 then DS2482_ERROR_TIMEOUT
       else w.err) := by
  obtain ⟨n, h1, h2, h3, h4, h5, h6, h7, h8, h9, h10, h11⟩ := waitLoop_run inp 999 w
  rw [waitOnBusy_eq]
  by_cases hb : (waitLoop inp (999 + 1) w).1 &&& DS2482_STATUS_BUSY ≠ 0
  · rw [if_pos hb]
    have hd : ((waitLoop inp (999 + 1) w).1,
        { (waitLoop inp (999 + 1) w).2 with err := DS2482_ERROR_TIMEOUT }).2.pos
        - w.pos = n := by
      have : ((waitLoop inp (999 + 1) w).1,
          { (waitLoop inp (999 + 1) w).2 with err := DS2482_ERROR_TIMEOUT }).2.pos
          = (waitLoop inp (999 + 1) w).2.pos := rfl
      omega
    rw [hd]
    refine ⟨h2, by omega, h4, h5, ?_, ?_, ?_⟩
    · intro hlt
      exact h6 hlt
    · intro _
      have := h7 hb
      omega
    · rw [if_pos hb]
  · rw [if_neg hb]
    have hd : (waitLoop inp (999 + 1) w).2.pos - w.pos = n := by omega
    rw [hd]
    refine ⟨h2, by omega, h4, h5, fun _ => ?_, fun hx => absurd hx hb, ?_⟩
    · by_contra hx
      exact hb hx
    · rw [if_neg hb]
      exact h8

/-- A concrete state evaluation used with claim C7: against `shortStatusInp`
(reset status 0x04: SD set, PPD clear) `wireReset` returns false and records
`ShortCircuit`. -/
theorem c7_short_instance :
    (wireReset shortStatusInp W0).1 = false ∧
    (wireReset shortStatusInp W0).2.err = DS2482_ERROR_SHORT ∧
    shortStatusInp 5 % 256 &&& DS2482_STATUS_SD ≠ 0 ∧
    shortStatusInp 5 % 256 &&& DS2482_STATUS_PPD = 0 := by decide

/-- Claim C7: `wireReset` returns true exactly when the PPD bit is set in the
status captured by the busy-wait after the reset command; an SD bit in that
same status records `ShortCircuit` without aborting (the error is recorded
and the return value still follows the presence bit; with SD clear the error
record is whatever the preceding steps left).  In particular a status with SD
set and PPD clear yields false with `ShortCircuit` recorded. -/
theorem c7_wire_reset_presence_and_short (inp : Nat → Nat) (w : W) :
    ((wireReset inp w).1 = true ↔
      (waitOnBusy inp (wireResetIssue (wireResetPre inp w))).1 &&&
        DS2482_STATUS_PPD ≠ 0) ∧
    ((waitOnBusy inp (wireResetIssue (wireResetPre inp w))).1 &&&
        DS2482_STATUS_SD ≠ 0 →
      (wireReset inp w).2.err = DS2482_ERROR_SHORT) ∧
    ((waitOnBusy inp (wireResetIssue (wireResetPre inp w))).1 &&&
        DS2482_STATUS_SD = 0 →
      (wireReset inp w).2.err =
        (waitOnBusy inp (wireResetIssue (wireResetPre inp w))).2.err) ∧
    ((waitOnBusy inp (wireResetIssue (wireResetPre inp w))).1 &&&
          DS2482_STATUS_SD ≠ 0 ∧
        (waitOnBusy inp (wireResetIssue (wireResetPre inp w))).1 &&&
          DS2482_STATUS_PPD = 0 →
      (wireReset inp w).1 = false ∧ (wireReset inp w).2.err = DS2482_ERROR_SHORT) := by
  have hq : wireReset inp w =
      (if (waitOnBusy inp (wireResetIssue (wireResetPre inp w))).1 &&&
          DS2482_STATUS_PPD ≠ 0 then true else false,
       if (waitOnBusy inp (wireResetIssue (wireResetPre inp w))).1 &&&
          DS2482_STATUS_SD ≠ 0 then
         { (waitOnBusy inp (wireResetIssue (wireResetPre inp w))).2 with
           err := DS2482_ERROR_SHORT }
       else (waitOnBusy inp (wireResetIssue (wireResetPre inp w))).2) := rfl
  rw [hq]
  by_cases hsd : (waitOnBusy inp (wireResetIssue (wireResetPre inp w))).1 &&&
      DS2482_STATUS_SD ≠ 0 <;>
    by_cases hppd : (waitOnBusy inp (wireResetIssue (wireResetPre inp w))).1 &&&
        DS2482_STATUS_PPD ≠ 0 <;>
    simp [hsd, hppd]

/-- Claim C1 (code bug): `clearStrongPullup` computes
`readConfig() & !DS2482_CONFIG_SPU` with C's logical not `!`, so the value it
passes to `writeConfig` is 0 for every configuration read back, clearing all
configuration bits, where the claimed read-modify-write of the SPU bit alone
would keep the other bits (at configuration 0x01, the APU bit, it would write
0x01).  The trace of a run against a bridge whose configuration reads back
0x01 shows the write-configuration command carrying value 0 (payload 0xF0).
`setStrongPullup` does pass `config | SPU` as the claim states. -/
theorem c1_clear_strong_pullup_clears_all_bits :
    logicalNot DS2482_CONFIG_SPU = 0 ∧
    clearSpuArg 1 = 0 ∧
    1 &&& (255 ^^^ DS2482_CONFIG_SPU) = 1 ∧
    setSpuArg 1 = (1 ||| DS2482_CONFIG_SPU) ∧
    (clearStrongPullup apuInp W0).tr =
      [Ev.cmd [DS2482_COMMAND_SRP, DS2482_POINTER_CONFIG], Ev.rd 1,
       Ev.cmd [DS2482_COMMAND_SRP, DS2482_POINTER_STATUS], Ev.rd 0,
       Ev.cmd [DS2482_COMMAND_WRITECONFIG, 0xF0], Ev.rd 0] := by decide

/-! ## Checksum lemmas -/

theorem crc8Rounds_succ (n crc inbyte : Nat) :
    crc8Rounds (n + 1) crc inbyte =
      crc8Rounds n
        (if (crc ^^^ inbyte) &&& 1 ≠ 0 then (crc >>> 1) ^^^ 0x8C else crc >>> 1)
        (inbyte >>> 1) := rfl

theorem shiftRight_one_xor (a b : Nat) :
    (a ^^^ b) >>> 1 = (a >>> 1) ^^^ (b >>> 1) := by
  apply Nat.eq_of_testBit_eq
  intro i
  simp [Nat.testBit_shiftRight, Nat.testBit_xor]

theorem crc8Rounds_xor (n : Nat) : ∀ c i : Nat,
    crc8Rounds n c i ^^^ (i >>> n) = crc8Rounds n (c ^^^ i) 0 := by
  induction n with
  | zero =>
    intro c i
    simp [crc8Rounds]
  | succ n ih =>
    intro c i
    rw [crc8Rounds_succ, crc8Rounds_succ]
    have h0 : (0 : Nat) >>> 1 = 0 := rfl
    have hm0 : ((c ^^^ i) ^^^ 0) = c ^^^ i := Nat.xor_zero _
    rw [h0, hm0]
    have hshift : i >>> (n + 1) = (i >>> 1) >>> n := by
      rw [Nat.add_comm, Nat.shiftRight_add]
    rw [hshift]
    rw [ih]
    congr 1
    by_cases hm : (c ^^^ i) &&& 1 ≠ 0
    · rw [if_pos hm, if_pos hm]
      rw [shiftRight_one_xor]
      rw [Nat.xor_assoc, Nat.xor_comm 0x8C ((i >>> 1)), ← Nat.xor_assoc]
    · rw [if_neg hm, if_neg hm]
      rw [shiftRight_one_xor]

theorem dscrc_table_getD_eq_rounds :
    ∀ x, x < 256 → dscrc_table.getD x 0 = crc8Rounds 8 x 0 := by decide

theorem dscrc_table_getD_lt : ∀ x, x < 256 → dscrc_table.getD x 0 < 256 := by decide

theorem xor_lt_256 (a b : Nat) (ha : a < 256) (hb : b < 256) : a ^^^ b < 256 := by
  have ha2 : a < 2 ^ 8 := by simpa using ha
  have hb2 : b < 2 ^ 8 := by simpa using hb
  simpa using Nat.xor_lt_two_pow ha2 hb2

theorem crc8_step_eq (c b : Nat) (hc : c < 256) (hb : b < 256) :
    dscrc_table.getD (c ^^^ b) 0 = crc8Rounds 8 c b := by
  have hx : c ^^^ b < 256 := xor_lt_256 c b hc hb
  have h8 : b >>> 8 = 0 := by
    rw [Nat.shiftRight_eq_div_pow]
    exact Nat.div_eq_of_lt (by simpa using hb)
  rw [dscrc_table_getD_eq_rounds _ hx, ← crc8Rounds_xor 8 c b, h8, Nat.xor_zero]

theorem crc8_fold_eq : ∀ (l : List Nat) (c : Nat), c < 256 → (∀ b ∈ l, b < 256) →
    l.foldl (fun crc b => dscrc_table.getD (crc ^^^ b) 0) c =
    l.foldl (fun crc b => crc8Rounds 8 crc b) c := by
  intro l
  induction l with
  | nil =>
    intro c _ _
    rfl
  | cons a l ih =>
    intro c hc hl
    have ha : a < 256 := hl a (List.mem_cons_self a l)
    have hx : c ^^^ a < 256 := xor_lt_256 c a hc ha
    have hlt : crc8Rounds 8 c a < 256 := by
      rw [← crc8_step_eq c a hc ha]
      exact dscrc_table_getD_lt _ hx
    simp only [List.foldl_cons]
    rw [crc8_step_eq c a hc ha]
    exact ih _ hlt (fun b hb => hl b (List.mem_cons_of_mem a hb))

/-- Claim C4: for every sequence of bytes, the table-lookup `crc8` and the
direct bit-by-bit `crc8` (accumulator 0, LSB-first, feedback 0x8C) agree. -/
theorem c4_crc8_table_eq_direct (l : List Nat) (hl : ∀ b ∈ l, b < 256) :
    crc8_table l = crc8_direct l := by
  unfold crc8_table crc8_direct
  exact crc8_fold_eq l 0 (by norm_num) hl

/-- Witness for claim C4 at a concrete byte sequence. -/
theorem c4_crc8_witness :
    (∀ b ∈ [0x28, 0xFF, 0x1C, 0x02, 0x96, 0x04, 0x5A], b < 256) ∧
    crc8_table [0x28, 0xFF, 0x1C, 0x02, 0x96, 0x04, 0x5A] =
      crc8_direct [0x28, 0xFF, 0x1C, 0x02, 0x96, 0x04, 0x5A] :=
  ⟨by decide, c4_crc8_table_eq_direct [0x28, 0xFF, 0x1C, 0x02, 0x96, 0x04, 0x5A]
    (by decide)⟩

/-! ## Configuration write lemmas (claim C5) -/

theorem configPayload_lt (c : Nat) : configPayload c < 256 :=
  Nat.mod_lt _ (by norm_num)

/-- Counterexample to claim C5 as stated: at configuration value 0x11 the
payload sent is 0xF1 = 0x11 OR ((~0x11 mod 2^8) << 4) mod 2^8; its lower
nibble 0x1 is not the value 0x11, and its upper nibble 0xF is not the
complement's nibble 0xE (nor the 8-bit complement 0xEE): the bits of the
value's own upper nibble bleed into the complement nibble. -/
theorem c5_counterexample_payload_nibbles :
    configPayload 0x11 = 0xF1 ∧
    ¬ (configPayload 0x11 % 16 = 0x11) ∧
    ¬ (configPayload 0x11 / 16 = (255 - 0x11) % 16) ∧
    ¬ (configPayload 0x11 / 16 = 255 - 0x11) := by decide

set_option maxHeartbeats 2000000 in
/-- Claim C5 amended: for every configuration value `c < 256`, `writeConfig`
sends the payload `(c ||| ((255 - c) <<< 4)) % 256` (the C expression
`config | (~config) << 4` truncated to 8 bits); its lower nibble is the
value's lower nibble, and when the value fits the 4-bit configuration
register (`c < 16`) the payload is exactly value in the lower nibble and the
value's 4-bit complement in the upper nibble.  It then reads one byte back
and records `ConfigMismatch` in `mError` if and only if that byte differs
from the value; otherwise the error record is left as the busy-wait left it. -/
theorem c5_write_config_payload_and_verify (inp : Nat → Nat) (w : W) (c : Nat)
    (hc : c < 256) :
    configPayload c = (c ||| ((255 - c) <<< 4)) % 256 ∧
    configPayload c % 16 = c % 16 ∧
    (c < 16 → configPayload c % 16 = c ∧ configPayload c / 16 = 15 - c) ∧
    (∃ t, (writeConfig inp c w).tr =
        (w.tr ++ t) ++ [Ev.cmd [DS2482_COMMAND_WRITECONFIG, configPayload c],
                        Ev.rd (inp ((waitOnBusy inp w).2.pos) % 256)] ∧
        ∀ e ∈ t, statusPollEv e) ∧
    ((writeConfig inp c w).err =
      if inp ((waitOnBusy inp w).2.pos) % 256 ≠ c then DS2482_ERROR_CONFIG
      else (waitOnBusy inp w).2.err) := by
  have hcm : c % 256 = c := Nat.mod_eq_of_lt hc
  have hpm : configPayload c % 256 = configPayload c :=
    Nat.mod_eq_of_lt (configPayload_lt c)
  refine ⟨?_, ?_, ?_, ?_, ?_⟩
  · simp [configPayload, hcm]
  · have h2 : ∀ x, x < 256 → configPayload x % 16 = x % 16 := by decide
    exact h2 c hc
  · have h3 : ∀ x, x < 16 → configPayload x % 16 = x ∧ configPayload x / 16 = 15 - x := by
      decide
    exact h3 c
  · obtain ⟨t, ht1, ht2⟩ := waitOnBusy_tr inp w
    refine ⟨t, ?_, ht2⟩
    simp only [writeConfig, readByte, endT, writeByte, beginT, apply_ite W.tr,
      ite_self]
    rw [hcm, hpm, ht1]
    simp [List.append_assoc, DS2482_COMMAND_WRITECONFIG]
  · simp only [writeConfig, readByte, endT, writeByte, beginT, apply_ite W.err]
    rw [hcm]

/-- Witness for claim C5: writing configuration value 0x01 against a bridge
that echoes 0x00 on readback records `ConfigMismatch`; the payload sent for
0x01 is 0xE1. -/
theorem c5_write_config_witness :
    (1 : Nat) < 256 ∧ (writeConfig echoZeroInp 1 W0).err = DS2482_ERROR_CONFIG ∧
    configPayload 1 = 0xE1 := by
  have h := (c5_write_config_payload_and_verify echoZeroInp W0 1 (by norm_num)).2.2.2.2
  refine ⟨by norm_num, ?_, by decide⟩
  rw [h]
  decide

/-! ## Trace machinery -/

theorem tripletsOf_append (s t : List Ev) :
    tripletsOf (s ++ t) = tripletsOf s ++ tripletsOf t := by
  induction s with
  | nil => rfl
  | cons e s ih =>
    rcases e with bytes | b | u
    · rcases bytes with _ | ⟨c, _ | ⟨p, _ | ⟨q, rest2⟩⟩⟩
      · simpa [tripletsOf] using ih
      · simpa [tripletsOf] using ih
      · by_cases hc : c = DS2482_COMMAND_TRIPLET
        · simp [tripletsOf, hc, ih]
        · simp [tripletsOf, hc, ih]
      · simpa [tripletsOf] using ih
    · simpa [tripletsOf] using ih
    · simpa [tripletsOf] using ih

theorem tripletsOf_nil_of_benign : ∀ t : List Ev, (∀ e ∈ t, benignEv e) →
    tripletsOf t = [] := by
  intro t
  induction t with
  | nil =>
    intro _
    rfl
  | cons e t ih =>
    intro h
    have he := h e (List.mem_cons_self e t)
    have ht := fun x hx => h x (List.mem_cons_of_mem e hx)
    rcases e with bytes | b | u
    · rcases bytes with _ | ⟨c, _ | ⟨p, _ | ⟨q, rest2⟩⟩⟩
      · simpa [tripletsOf] using ih ht
      · simpa [tripletsOf] using ih ht
      · have hc : ¬ c = DS2482_COMMAND_TRIPLET := by
          intro hc0
          exact (he.1 p) (by rw [hc0])
        simp [tripletsOf, hc, ih ht]
      · simpa [tripletsOf] using ih ht
    · simpa [tripletsOf] using ih ht
    · simpa [tripletsOf] using ih ht

theorem benignEv_rd (b : Nat) : benignEv (Ev.rd b) := ⟨fun p => by simp, by simp⟩

theorem benignEv_delay (u : Nat) : benignEv (Ev.delay u) := ⟨fun p => by simp, by simp⟩

theorem benignEv_cmd_pair (c p : Nat) (h1 : c ≠ DS2482_COMMAND_TRIPLET) :
    benignEv (Ev.cmd [c, p]) := by
  refine ⟨fun q => ?_, by simp⟩
  simp [h1]

theorem statusPollEv_benign (e : Ev) (h : statusPollEv e) : benignEv e := by
  rcases h with h | ⟨b, h⟩ | ⟨u, h⟩
  · rw [h]
    exact benignEv_cmd_pair _ _ (by decide)
  · rw [h]
    exact benignEv_rd b
  · rw [h]
    exact benignEv_delay u

theorem readConfig_tr (inp : Nat → Nat) (x : W) :
    (readConfig inp x).2.tr = x.tr ++
      [Ev.cmd [DS2482_COMMAND_SRP, DS2482_POINTER_CONFIG], Ev.rd (inp x.pos % 256)] := by
  simp [readConfig, readByte, setReadPointer, writeByte, beginT, endT,
    DS2482_COMMAND_SRP, DS2482_POINTER_CONFIG]

theorem configPayload_mod (c : Nat) : configPayload (c % 256) = configPayload c := by
  simp [configPayload, Nat.mod_mod_of_dvd c (dvd_refl 256)]

set_option maxHeartbeats 2000000 in
theorem writeConfig_tr (inp : Nat → Nat) (c : Nat) (x : W) :
    ∃ t, (writeConfig inp c x).tr =
      x.tr ++ (t ++ [Ev.cmd [DS2482_COMMAND_WRITECONFIG, configPayload c],
                     Ev.rd (inp ((waitOnBusy inp x).2.pos) % 256)]) ∧
      ∀ e ∈ t, statusPollEv e := by
  obtain ⟨t, ht1, ht2⟩ := waitOnBusy_tr inp x
  refine ⟨t, ?_, ht2⟩
  simp only [writeConfig, readByte, endT, writeByte, beginT, apply_ite W.tr,
    ite_self]
  rw [configPayload_mod, Nat.mod_eq_of_lt (configPayload_lt c), ht1]
  simp [List.append_assoc, DS2482_COMMAND_WRITECONFIG]

set_option maxHeartbeats 2000000 in
theorem writeConfig_frame (inp : Nat → Nat) (c : Nat) (x : W) :
    (writeConfig inp c x).sld = x.sld ∧ (writeConfig inp c x).sldf = x.sldf ∧
    (writeConfig inp c x).addr = x.addr := by
  obtain ⟨h1, h2, h3⟩ := waitOnBusy_frame inp x
  refine ⟨?_, ?_, ?_⟩ <;>
    simp only [writeConfig, readByte, endT, writeByte, beginT,
      apply_ite W.sld, apply_ite W.sldf, apply_ite W.addr, ite_self] <;>
    assumption

theorem clearSpuArg_eq_zero (c : Nat) : clearSpuArg c = 0 := by
  simp [clearSpuArg, logicalNot, DS2482_CONFIG_SPU]

theorem clearStrongPullup_eq (inp : Nat → Nat) (x : W) :
    clearStrongPullup inp x = writeConfig inp 0 (readConfig inp x).2 := by
  simp only [clearStrongPullup]
  rw [clearSpuArg_eq_zero]

theorem clearStrongPullup_tr (inp : Nat → Nat) (x : W) :
    ∃ A B, (clearStrongPullup inp x).tr =
      x.tr ++ (A ++ (Ev.cmd [DS2482_COMMAND_WRITECONFIG, configPayload 0] :: B)) ∧
      (∀ e ∈ A, benignEv e) ∧ (∀ e ∈ B, benignEv e) := by
  obtain ⟨t, ht1, ht2⟩ := writeConfig_tr inp 0 (readConfig inp x).2
  rw [readConfig_tr] at ht1
  refine ⟨[Ev.cmd [DS2482_COMMAND_SRP, DS2482_POINTER_CONFIG],
           Ev.rd (inp x.pos % 256)] ++ t,
          [Ev.rd (inp ((waitOnBusy inp (readConfig inp x).2).2.pos) % 256)],
          ?_, ?_, ?_⟩
  · rw [clearStrongPullup_eq, ht1]
    simp [List.append_assoc]
  · intro e he
    rcases List.mem_append.1 he with he | he
    · simp at he
      rcases he with he | he
      · rw [he]
        exact benignEv_cmd_pair _ _ (by decide)
      · rw [he]
        exact benignEv_rd _
    · exact statusPollEv_benign e (ht2 e he)
  · intro e he
    simp at he
    rw [he]
    exact benignEv_rd _

theorem wireResetIssue_tr (x : W) :
    (wireResetIssue x).tr = x.tr ++ [Ev.cmd [DS2482_COMMAND_RESETWIRE]] := by
  simp [wireResetIssue, endT, writeByte, beginT, DS2482_COMMAND_RESETWIRE]

theorem wireResetPre_tr (inp : Nat → Nat) (w : W) :
    ∃ A B, (wireResetPre inp w).tr =
      w.tr ++ (A ++ (Ev.cmd [DS2482_COMMAND_WRITECONFIG, configPayload 0] :: B)) ∧
      (∀ e ∈ A, benignEv e) ∧ (∀ e ∈ B, benignEv e) := by
  obtain ⟨t1, ht11, ht12⟩ := waitOnBusy_tr inp w
  obtain ⟨A, B, hA, hAb, hBb⟩ := clearStrongPullup_tr inp (waitOnBusy inp w).2
  obtain ⟨t3, ht31, ht32⟩ :=
    waitOnBusy_tr inp (clearStrongPullup inp (waitOnBusy inp w).2)
  refine ⟨t1 ++ A, B ++ t3, ?_, ?_, ?_⟩
  · show (waitOnBusy inp (clearStrongPullup inp (waitOnBusy inp w).2)).2.tr = _
    rw [ht31, hA, ht11]
    simp [List.append_assoc]
  · intro e he
    rcases List.mem_append.1 he with he | he
    · exact statusPollEv_benign e (ht12 e he)
    · exact hAb e he
  · intro e he
    rcases List.mem_append.1 he with he | he
    · exact hBb e he
    · exact statusPollEv_benign e (ht32 e he)

theorem wireReset_tr_eq (inp : Nat → Nat) (w : W) :
    (wireReset inp w).2.tr =
      (waitOnBusy inp (wireResetIssue (wireResetPre inp w))).2.tr := by
  simp only [wireReset, apply_ite W.tr, ite_self]

theorem wireReset_tr (inp : Nat → Nat) (w : W) :
    ∃ A B C, (wireReset inp w).2.tr =
      w.tr ++ (A ++ (Ev.cmd [DS2482_COMMAND_WRITECONFIG, configPayload 0] ::
        (B ++ (Ev.cmd [DS2482_COMMAND_RESETWIRE] :: C)))) ∧
      (∀ e ∈ A, benignEv e) ∧ (∀ e ∈ B, benignEv e) ∧ ∀ e ∈ C, benignEv e := by
  obtain ⟨A, B, hpre, hAb, hBb⟩ := wireResetPre_tr inp w
  obtain ⟨t, ht1, ht2⟩ := waitOnBusy_tr inp (wireResetIssue (wireResetPre inp w))
  refine ⟨A, B, t, ?_, hAb, hBb, fun e he => statusPollEv_benign e (ht2 e he)⟩
  rw [wireReset_tr_eq, ht1, wireResetIssue_tr, hpre]
  simp [List.append_assoc]

/-- Claim C8: in every call to `wireReset`, against every bridge behaviour, a
configuration write carrying value 0 — in particular with the strong-pullup
bit clear — appears in the trace strictly before the (first) 1-Wire-reset
command; no reset command precedes it.  This in particular covers
`setStrongPullup()` followed by `wireReset`, since the pre-state `w` is
arbitrary.  (The value written is 0 because `clearStrongPullup` masks the
configuration with `!SPU` = 0, so each such write clears SPU — and every
other bit.) -/
theorem c8_clear_spu_before_reset_command (inp : Nat → Nat) (w : W) :
    ∃ A B C, (wireReset inp w).2.tr =
      w.tr ++ (A ++ (Ev.cmd [DS2482_COMMAND_WRITECONFIG, configPayload 0] ::
        (B ++ (Ev.cmd [DS2482_COMMAND_RESETWIRE] :: C)))) ∧
      Ev.cmd [DS2482_COMMAND_RESETWIRE] ∉ A ∧
      Ev.cmd [DS2482_COMMAND_RESETWIRE] ∉ B ∧
      configPayload 0 % 16 &&& DS2482_CONFIG_SPU = 0 ∧
      ∀ c, clearSpuArg c &&& DS2482_CONFIG_SPU = 0 := by
  obtain ⟨A, B, C, h, hA, hB, hC⟩ := wireReset_tr inp w
  refine ⟨A, B, C, h, fun hm => (hA _ hm).2 rfl, fun hm => (hB _ hm).2 rfl,
    by decide, fun c => by rw [clearSpuArg_eq_zero]; decide⟩

/-! ## Frame lemmas: which operations touch the search state -/

theorem readConfig_frame (inp : Nat → Nat) (x : W) :
    (readConfig inp x).2.sld = x.sld ∧ (readConfig inp x).2.sldf = x.sldf ∧
    (readConfig inp x).2.addr = x.addr := ⟨rfl, rfl, rfl⟩

theorem setStrongPullup_frame (inp : Nat → Nat) (x : W) :
    (setStrongPullup inp x).sld = x.sld ∧ (setStrongPullup inp x).sldf = x.sldf ∧
    (setStrongPullup inp x).addr = x.addr := by
  obtain ⟨h1, h2, h3⟩ :=
    writeConfig_frame inp (setSpuArg (readConfig inp x).1) (readConfig inp x).2
  exact ⟨h1, h2, h3⟩

theorem clearStrongPullup_frame (inp : Nat → Nat) (x : W) :
    (clearStrongPullup inp x).sld = x.sld ∧ (clearStrongPullup inp x).sldf = x.sldf ∧
    (clearStrongPullup inp x).addr = x.addr := by
  obtain ⟨h1, h2, h3⟩ :=
    writeConfig_frame inp (clearSpuArg (readConfig inp x).1) (readConfig inp x).2
  exact ⟨h1, h2, h3⟩

theorem wireResetPre_frame (inp : Nat → Nat) (w : W) :
    (wireResetPre inp w).sld = w.sld ∧ (wireResetPre inp w).sldf = w.sldf ∧
    (wireResetPre inp w).addr = w.addr := by
  obtain ⟨a1, a2, a3⟩ := waitOnBusy_frame inp w
  obtain ⟨b1, b2, b3⟩ := clearStrongPullup_frame inp (waitOnBusy inp w).2
  obtain ⟨c1, c2, c3⟩ :=
    waitOnBusy_frame inp (clearStrongPullup inp (waitOnBusy inp w).2)
  exact ⟨c1.trans (b1.trans a1), c2.trans (b2.trans a2), c3.trans (b3.trans a3)⟩

theorem wireReset_frame (inp : Nat → Nat) (w : W) :
    (wireReset inp w).2.sld = w.sld ∧ (wireReset inp w).2.sldf = w.sldf ∧
    (wireReset inp w).2.addr = w.addr := by
  obtain ⟨p1, p2, p3⟩ := wireResetPre_frame inp w
  obtain ⟨q1, q2, q3⟩ := waitOnBusy_frame inp (wireResetIssue (wireResetPre inp w))
  have h1 : (wireReset inp w).2.sld =
      (waitOnBusy inp (wireResetIssue (wireResetPre inp w))).2.sld := by
    simp only [wireReset, apply_ite W.sld, ite_self]
  have h2 : (wireReset inp w).2.sldf =
      (waitOnBusy inp (wireResetIssue (wireResetPre inp w))).2.sldf := by
    simp only [wireReset, apply_ite W.sldf, ite_self]
  have h3 : (wireReset inp w).2.addr =
      (waitOnBusy inp (wireResetIssue (wireResetPre inp w))).2.addr := by
    simp only [wireReset, apply_ite W.addr, ite_self]
  exact ⟨h1.trans (q1.trans p1), h2.trans (q2.trans p2), h3.trans (q3.trans p3)⟩

theorem wireWriteByte_frame (inp : Nat → Nat) (d p : Nat) (x : W) :
    (wireWriteByte inp d p x).sld = x.sld ∧ (wireWriteByte inp d p x).sldf = x.sldf ∧
    (wireWriteByte inp d p x).addr = x.addr := by
  obtain ⟨a1, a2, a3⟩ := waitOnBusy_frame inp x
  obtain ⟨b1, b2, b3⟩ := setStrongPullup_frame inp (waitOnBusy inp x).2
  by_cases hp : p ≠ 0
  · simp only [wireWriteByte, if_pos hp, endT, writeByte, beginT]
    exact ⟨b1.trans a1, b2.trans a2, b3.trans a3⟩
  · simp only [wireWriteByte, if_neg hp, endT, writeByte, beginT]
    exact ⟨a1, a2, a3⟩

theorem spuInlineWrite_frame (inp : Nat → Nat) (y : W) :
    (spuInlineWrite inp y).sld = y.sld ∧ (spuInlineWrite inp y).sldf = y.sldf ∧
    (spuInlineWrite inp y).addr = y.addr := by
  refine ⟨?_, ?_, ?_⟩ <;>
    simp only [spuInlineWrite, readByte, writeByte, apply_ite W.sld,
      apply_ite W.sldf, apply_ite W.addr, ite_self]

theorem wireWriteBytesBody_frame (inp : Nat → Nat) (power : Nat) :
    ∀ (l : List Nat) (y : W),
      (wireWriteBytesBody inp power l y).sld = y.sld ∧
      (wireWriteBytesBody inp power l y).sldf = y.sldf ∧
      (wireWriteBytesBody inp power l y).addr = y.addr := by
  intro l
  induction l with
  | nil =>
    intro y
    exact ⟨rfl, rfl, rfl⟩
  | cons b l ih =>
    intro y
    obtain ⟨s1, s2, s3⟩ := spuInlineWrite_frame inp y
    by_cases hp : power ≠ 0
    · obtain ⟨j1, j2, j3⟩ :=
        ih (writeByte (writeByte (spuInlineWrite inp y) DS2482_COMMAND_WRITEBYTE) b)
      simp only [wireWriteBytesBody, if_pos hp]
      exact ⟨j1.trans s1, j2.trans s2, j3.trans s3⟩
    · obtain ⟨j1, j2, j3⟩ :=
        ih (writeByte (writeByte y DS2482_COMMAND_WRITEBYTE) b)
      simp only [wireWriteBytesBody, if_neg hp]
      exact ⟨j1, j2, j3⟩

theorem wireWriteBytes_frame (inp : Nat → Nat) (l : List Nat) (p : Nat) (x : W) :
    (wireWriteBytes inp l p x).sld = x.sld ∧ (wireWriteBytes inp l p x).sldf = x.sldf ∧
    (wireWriteBytes inp l p x).addr = x.addr := by
  obtain ⟨a1, a2, a3⟩ := waitOnBusy_frame inp x
  obtain ⟨b1, b2, b3⟩ := wireWriteBytesBody_frame inp p l (beginT (waitOnBusy inp x).2)
  exact ⟨b1.trans a1, b2.trans a2, b3.trans a3⟩

theorem wireReadByte_frame (inp : Nat → Nat) (x : W) :
    (wireReadByte inp x).2.sld = x.sld ∧ (wireReadByte inp x).2.sldf = x.sldf ∧
    (wireReadByte inp x).2.addr = x.addr := by
  obtain ⟨a1, a2, a3⟩ := waitOnBusy_frame inp x
  obtain ⟨b1, b2, b3⟩ := waitOnBusy_frame inp
    (endT (writeByte (beginT (waitOnBusy inp x).2) DS2482_COMMAND_READBYTE))
  exact ⟨b1.trans a1, b2.trans a2, b3.trans a3⟩

theorem wireWriteBit_frame (inp : Nat → Nat) (d p : Nat) (x : W) :
    (wireWriteBit inp d p x).sld = x.sld ∧ (wireWriteBit inp d p x).sldf = x.sldf ∧
    (wireWriteBit inp d p x).addr = x.addr := by
  obtain ⟨a1, a2, a3⟩ := waitOnBusy_frame inp x
  obtain ⟨b1, b2, b3⟩ := setStrongPullup_frame inp (waitOnBusy inp x).2
  by_cases hp : p ≠ 0
  · simp only [wireWriteBit, if_pos hp, endT, writeByte, beginT]
    exact ⟨b1.trans a1, b2.trans a2, b3.trans a3⟩
  · simp only [wireWriteBit, if_neg hp, endT, writeByte, beginT]
    exact ⟨a1, a2, a3⟩

theorem wireReadBit_frame (inp : Nat → Nat) (x : W) :
    (wireReadBit inp x).2.sld = x.sld ∧ (wireReadBit inp x).2.sldf = x.sldf ∧
    (wireReadBit inp x).2.addr = x.addr := by
  obtain ⟨a1, a2, a3⟩ := wireWriteBit_frame inp 1 0 x
  obtain ⟨b1, b2, b3⟩ := waitOnBusy_frame inp (wireWriteBit inp 1 0 x)
  exact ⟨b1.trans a1, b2.trans a2, b3.trans a3⟩

theorem wireSkip_frame (inp : Nat → Nat) (x : W) :
    (wireSkip inp x).sld = x.sld ∧ (wireSkip inp x).sldf = x.sldf ∧
    (wireSkip inp x).addr = x.addr := wireWriteByte_frame inp WIRE_COMMAND_SKIP 0 x

theorem wireSelect_frame (inp : Nat → Nat) (rom : List Nat) (x : W) :
    (wireSelect inp rom x).sld = x.sld ∧ (wireSelect inp rom x).sldf = x.sldf ∧
    (wireSelect inp rom x).addr = x.addr := by
  have hfold : ∀ (L : List Nat) (y : W),
      ((L.foldl (fun wa i => wireWriteByte inp (rom.getD i 0) 0 wa) y).sld = y.sld ∧
       (L.foldl (fun wa i => wireWriteByte inp (rom.getD i 0) 0 wa) y).sldf = y.sldf ∧
       (L.foldl (fun wa i => wireWriteByte inp (rom.getD i 0) 0 wa) y).addr = y.addr) := by
    intro L
    induction L with
    | nil =>
      intro y
      exact ⟨rfl, rfl, rfl⟩
    | cons a L ih =>
      intro y
      obtain ⟨u1, u2, u3⟩ := wireWriteByte_frame inp (rom.getD a 0) 0 y
      obtain ⟨v1, v2, v3⟩ := ih (wireWriteByte inp (rom.getD a 0) 0 y)
      simp only [List.foldl_cons]
      exact ⟨v1.trans u1, v2.trans u2, v3.trans u3⟩
  obtain ⟨a1, a2, a3⟩ := wireWriteByte_frame inp WIRE_COMMAND_SELECT 0 x
  obtain ⟨b1, b2, b3⟩ := hfold (List.range 8) (wireWriteByte inp WIRE_COMMAND_SELECT 0 x)
  exact ⟨b1.trans a1, b2.trans a2, b3.trans a3⟩

theorem tripletStep_frame (inp : Nat → Nat) (i : Nat) (w : W) :
    (tripletStep inp i w).2.sld = w.sld ∧ (tripletStep inp i w).2.sldf = w.sldf ∧
    (tripletStep inp i w).2.addr = w.addr := by
  obtain ⟨a1, a2, a3⟩ := waitOnBusy_frame inp w
  obtain ⟨b1, b2, b3⟩ := waitOnBusy_frame inp
    (endT (writeByte (writeByte (beginT (waitOnBusy inp w).2) DS2482_COMMAND_TRIPLET)
      (if dirForce w.sld w.addr i ≠ 0 then 0x80 else 0x00)))
  exact ⟨b1.trans a1, b2.trans a2, b3.trans a3⟩

theorem searchLoop_succ (inp : Nat → Nat) (fuel i lz : Nat) (w : W) :
    searchLoop inp (fuel + 1) i lz w =
      (if (tripletStep inp i w).1 &&& DS2482_STATUS_SBR ≠ 0 ∧
          (tripletStep inp i w).1 &&& DS2482_STATUS_TSB ≠ 0 then
        (none, (tripletStep inp i w).2)
      else
        searchLoop inp fuel (i + 1)
          (if (tripletStep inp i w).1 &&& DS2482_STATUS_SBR = 0 ∧
              (tripletStep inp i w).1 &&& DS2482_STATUS_TSB = 0 ∧
              (tripletStep inp i w).1 &&& DS2482_STATUS_DIR = 0 then i else lz)
          (if (tripletStep inp i w).1 &&& DS2482_STATUS_DIR ≠ 0 then
            { (tripletStep inp i w).2 with addr := setBit (tripletStep inp i w).2.addr i }
           else
            { (tripletStep inp i w).2 with
              addr := clearBit (tripletStep inp i w).2.addr i })) := rfl

theorem searchLoop_frame (inp : Nat → Nat) :
    ∀ (fuel i lz : Nat) (w : W),
      (searchLoop inp fuel i lz w).2.sld = w.sld ∧
      (searchLoop inp fuel i lz w).2.sldf = w.sldf := by
  intro fuel
  induction fuel with
  | zero =>
    intro i lz w
    exact ⟨rfl, rfl⟩
  | succ fuel ih =>
    intro i lz w
    rw [searchLoop_succ]
    obtain ⟨t1, t2, _⟩ := tripletStep_frame inp i w
    by_cases hab : (tripletStep inp i w).1 &&& DS2482_STATUS_SBR ≠ 0 ∧
        (tripletStep inp i w).1 &&& DS2482_STATUS_TSB ≠ 0
    · rw [if_pos hab]
      exact ⟨t1, t2⟩
    · rw [if_neg hab]
      by_cases hdir : (tripletStep inp i w).1 &&& DS2482_STATUS_DIR ≠ 0
      · rw [if_pos hdir]
        obtain ⟨j1, j2⟩ := ih (i + 1)
          (if (tripletStep inp i w).1 &&& DS2482_STATUS_SBR = 0 ∧
              (tripletStep inp i w).1 &&& DS2482_STATUS_TSB = 0 ∧
              (tripletStep inp i w).1 &&& DS2482_STATUS_DIR = 0 then i else lz)
          { (tripletStep inp i w).2 with addr := setBit (tripletStep inp i w).2.addr i }
        exact ⟨j1.trans t1, j2.trans t2⟩
      · rw [if_neg hdir]
        obtain ⟨j1, j2⟩ := ih (i + 1)
          (if (tripletStep inp i w).1 &&& DS2482_STATUS_SBR = 0 ∧
              (tripletStep inp i w).1 &&& DS2482_STATUS_TSB = 0 ∧
              (tripletStep inp i w).1 &&& DS2482_STATUS_DIR = 0 then i else lz)
          { (tripletStep inp i w).2 with addr := clearBit (tripletStep inp i w).2.addr i }
        exact ⟨j1.trans t1, j2.trans t2⟩

theorem searchRun_frame (inp : Nat → Nat) (w : W) :
    (searchRun inp w).2.sld = w.sld ∧ (searchRun inp w).2.sldf = w.sldf := by
  obtain ⟨a1, a2, _⟩ := wireReset_frame inp w
  obtain ⟨b1, b2, _⟩ := waitOnBusy_frame inp (wireReset inp w).2
  obtain ⟨c1, c2, _⟩ := wireWriteByte_frame inp WIRE_COMMAND_SEARCH 0
    (waitOnBusy inp (wireReset inp w).2).2
  obtain ⟨d1, d2⟩ := searchLoop_frame inp 64 0 0
    (wireWriteByte inp WIRE_COMMAND_SEARCH 0 (waitOnBusy inp (wireReset inp w).2).2)
  exact ⟨d1.trans (c1.trans (b1.trans a1)), d2.trans (c2.trans (b2.trans a2))⟩

/-! ## Bit-level lemmas on the searchAddress buffer -/

theorem getD_set_ne (l : List Nat) (m n : Nat) (v : Nat) (h : m ≠ n) :
    (l.set m v).getD n 0 = l.getD n 0 := by
  rw [List.getD_eq_getElem?_getD, List.getD_eq_getElem?_getD,
    List.getElem?_set_ne h]

theorem div_mod_ne (i q : Nat) (h : i ≠ q) (hd : i / 8 = q / 8) : i % 8 ≠ q % 8 := by
  intro hm
  exact h (by omega)

theorem bitAux_or (x bi bq : Nat) (hbq : bq < 8) (hne : bi ≠ bq) :
    ((x ||| (1 <<< bi)) % 256) &&& (1 <<< bq) = x &&& (1 <<< bq) := by
  apply Nat.eq_of_testBit_eq
  intro n
  rw [show (256 : Nat) = 2 ^ 8 from by norm_num]
  simp only [Nat.testBit_land, Nat.testBit_mod_two_pow, Nat.testBit_lor,
    Nat.one_shiftLeft, Nat.testBit_two_pow]
  by_cases hn : bq = n
  · subst hn
    simp [hbq, hne]
  · simp [hn]

theorem bitAux_and (x bi bq : Nat) (hbq : bq < 8) (hne : bi ≠ bq) :
    (x &&& (255 ^^^ (1 <<< bi))) &&& (1 <<< bq) = x &&& (1 <<< bq) := by
  apply Nat.eq_of_testBit_eq
  intro n
  simp only [Nat.testBit_land, Nat.testBit_xor, Nat.one_shiftLeft,
    Nat.testBit_two_pow]
  by_cases hn : bq = n
  · subst hn
    have h255 : (255 : Nat).testBit bq = true := by
      have hh : ∀ b : Nat, b < 8 → (255 : Nat).testBit b = true := by decide
      exact hh bq hbq
    simp [h255, hne]
  · simp [hn]

theorem bitOf_setBit_ne (a : List Nat) (i q : Nat) (h : i ≠ q) :
    bitOf (setBit a i) q = bitOf a q := by
  by_cases hd : i / 8 = q / 8
  · have hm := div_mod_ne i q h hd
    unfold bitOf setBit
    rw [hd]
    simp only [List.getD_eq_getElem?_getD, List.getElem?_set]
    by_cases hlen : q / 8 < a.length
    · simp only [if_true, if_pos hlen, Option.getD_some]
      exact bitAux_or _ _ _ (Nat.mod_lt q (by norm_num)) hm
    · simp only [if_true, if_neg hlen,
        List.getElem?_eq_none (Nat.le_of_not_lt hlen), Option.getD_none]
  · unfold bitOf setBit
    rw [getD_set_ne _ _ _ _ hd]

theorem bitOf_clearBit_ne (a : List Nat) (i q : Nat) (h : i ≠ q) :
    bitOf (clearBit a i) q = bitOf a q := by
  by_cases hd : i / 8 = q / 8
  · have hm := div_mod_ne i q h hd
    unfold bitOf clearBit
    rw [hd]
    simp only [List.getD_eq_getElem?_getD, List.getElem?_set]
    by_cases hlen : q / 8 < a.length
    · simp only [if_true, if_pos hlen, Option.getD_some]
      exact bitAux_and _ _ _ (Nat.mod_lt q (by norm_num)) hm
    · simp only [if_true, if_neg hlen,
        List.getElem?_eq_none (Nat.le_of_not_lt hlen), Option.getD_none]
  · unfold bitOf clearBit
    rw [getD_set_ne _ _ _ _ hd]

theorem length_setBit (a : List Nat) (i : Nat) : (setBit a i).length = a.length :=
  List.length_set a _ _

theorem length_clearBit (a : List Nat) (i : Nat) : (clearBit a i).length = a.length :=
  List.length_set a _ _

/-! ## Evaluation under a never-busy bridge -/

theorem waitOnBusy_nb (inp : Nat → Nat) (hnb : NB inp) (w : W) :
    waitOnBusy inp w =
      (inp w.pos % 256,
       { w with
         buf := [],
         pos := w.pos + 1,
         tr := w.tr ++ [Ev.cmd [DS2482_COMMAND_SRP, DS2482_POINTER_STATUS],
                        Ev.rd (inp w.pos % 256)] }) := by
  have h := hnb w.pos
  rw [waitOnBusy_eq, waitLoop_succ, readStatus_fst, if_pos h, readStatus_fst,
    if_neg (not_not_intro h)]
  simp [readStatus, readByte, setReadPointer, writeByte, beginT, endT,
    DS2482_COMMAND_SRP, DS2482_POINTER_STATUS]

theorem waitOnBusy_pos_nb (inp : Nat → Nat) (hnb : NB inp) (w : W) :
    (waitOnBusy inp w).2.pos = w.pos + 1 := by
  rw [waitOnBusy_nb inp hnb w]

theorem waitOnBusy_fst_nb (inp : Nat → Nat) (hnb : NB inp) (w : W) :
    (waitOnBusy inp w).1 = inp w.pos % 256 := by
  rw [waitOnBusy_nb inp hnb w]

theorem waitOnBusy_err_nb (inp : Nat → Nat) (hnb : NB inp) (w : W) :
    (waitOnBusy inp w).2.err = w.err := by
  rw [waitOnBusy_nb inp hnb w]

theorem readConfig_pos (inp : Nat → Nat) (x : W) :
    (readConfig inp x).2.pos = x.pos + 1 := rfl

theorem writeConfig_pos (inp : Nat → Nat) (c : Nat) (x : W) :
    (writeConfig inp c x).pos = (waitOnBusy inp x).2.pos + 1 := by
  simp only [writeConfig, readByte, endT, writeByte, beginT, apply_ite W.pos,
    ite_self]

theorem clearStrongPullup_pos_nb (inp : Nat → Nat) (hnb : NB inp) (x : W) :
    (clearStrongPullup inp x).pos = x.pos + 3 := by
  rw [clearStrongPullup_eq, writeConfig_pos,
    waitOnBusy_pos_nb inp hnb (readConfig inp x).2, readConfig_pos]

theorem wireResetPre_pos_nb (inp : Nat → Nat) (hnb : NB inp) (w : W) :
    (wireResetPre inp w).pos = w.pos + 5 := by
  show (waitOnBusy inp (clearStrongPullup inp (waitOnBusy inp w).2)).2.pos = _
  rw [waitOnBusy_pos_nb inp hnb, clearStrongPullup_pos_nb inp hnb,
    waitOnBusy_pos_nb inp hnb]

theorem wireResetIssue_pos (x : W) : (wireResetIssue x).pos = x.pos := rfl

theorem wireReset_pos_eq (inp : Nat → Nat) (w : W) :
    (wireReset inp w).2.pos =
      (waitOnBusy inp (wireResetIssue (wireResetPre inp w))).2.pos := by
  simp only [wireReset, apply_ite W.pos, ite_self]

theorem wireReset_pos_nb (inp : Nat → Nat) (hnb : NB inp) (w : W) :
    (wireReset inp w).2.pos = w.pos + 6 := by
  rw [wireReset_pos_eq, waitOnBusy_pos_nb inp hnb, wireResetIssue_pos,
    wireResetPre_pos_nb inp hnb]

theorem wireReset_fst (inp : Nat → Nat) (w : W) :
    (wireReset inp w).1 =
      (if (waitOnBusy inp (wireResetIssue (wireResetPre inp w))).1 &&&
          DS2482_STATUS_PPD ≠ 0 then true else false) := rfl

theorem wireReset_fst_nb (inp : Nat → Nat) (hnb : NB inp) (w : W) :
    (wireReset inp w).1 =
      (if inp (w.pos + 5) % 256 &&& DS2482_STATUS_PPD ≠ 0 then true else false) := by
  rw [wireReset_fst, waitOnBusy_fst_nb inp hnb, wireResetIssue_pos,
    wireResetPre_pos_nb inp hnb]

theorem wireWriteByte_pos0 (inp : Nat → Nat) (d : Nat) (x : W) :
    (wireWriteByte inp d 0 x).pos = (waitOnBusy inp x).2.pos := by
  simp only [wireWriteByte, endT, writeByte, beginT]
  simp

theorem wireWriteByte_pos0_nb (inp : Nat → Nat) (hnb : NB inp) (d : Nat) (x : W) :
    (wireWriteByte inp d 0 x).pos = x.pos + 1 := by
  rw [wireWriteByte_pos0, waitOnBusy_pos_nb inp hnb]

theorem tripletStep_nb (inp : Nat → Nat) (hnb : NB inp) (i : Nat) (w : W) :
    tripletStep inp i w =
      (inp (w.pos + 1) % 256,
       { w with
         buf := [],
         pos := w.pos + 2,
         tr := w.tr ++ [Ev.cmd [DS2482_COMMAND_SRP, DS2482_POINTER_STATUS],
                        Ev.rd (inp w.pos % 256),
                        Ev.cmd [DS2482_COMMAND_TRIPLET,
                          if dirForce w.sld w.addr i ≠ 0 then 128 else 0],
                        Ev.cmd [DS2482_COMMAND_SRP, DS2482_POINTER_STATUS],
                        Ev.rd (inp (w.pos + 1) % 256)] }) := by
  simp only [tripletStep]
  rw [waitOnBusy_nb inp hnb w]
  rw [waitOnBusy_nb inp hnb]
  simp [endT, writeByte, beginT, List.append_assoc, DS2482_COMMAND_TRIPLET,
    apply_ite (fun x => x % 256)]

/-! ## Claim C9 -/

/-- Claim C9: once `searchLastDeviceFlag` is nonzero, `wireSearch` returns 0
with the whole state — trace included, so no bridge command is issued — and
the caller's array untouched; `wireResetSearch` clears the flag (and the
discrepancy cursor); and it is the only operation that does: every other
operation of the driver leaves `searchLastDeviceFlag` unchanged, except that
`wireSearch` itself may set it to 1 at the end of a completed pass. -/
theorem c9_last_device_flag_gates_search (inp : Nat → Nat) (a : List Nat) (w : W)
    (c d p rp : Nat) (l rom : List Nat) :
    (w.sldf ≠ 0 → wireSearch inp a w = (0, a, w)) ∧
    (wireResetSearch w).sldf = 0 ∧ (wireResetSearch w).sld = 0 ∧
    (setReadPointer w rp).sldf = w.sldf ∧
    (readStatus inp w).2.sldf = w.sldf ∧
    (readData inp w).2.sldf = w.sldf ∧
    (readConfig inp w).2.sldf = w.sldf ∧
    (waitOnBusy inp w).2.sldf = w.sldf ∧
    (writeConfig inp c w).sldf = w.sldf ∧
    (setStrongPullup inp w).sldf = w.sldf ∧
    (clearStrongPullup inp w).sldf = w.sldf ∧
    (wireReset inp w).2.sldf = w.sldf ∧
    (wireWriteByte inp d p w).sldf = w.sldf ∧
    (wireWriteBytes inp l p w).sldf = w.sldf ∧
    (wireReadByte inp w).2.sldf = w.sldf ∧
    (wireWriteBit inp d p w).sldf = w.sldf ∧
    (wireReadBit inp w).2.sldf = w.sldf ∧
    (wireSkip inp w).sldf = w.sldf ∧
    (wireSelect inp rom w).sldf = w.sldf ∧
    ((wireSearch inp a w).2.2.sldf = w.sldf ∨ (wireSearch inp a w).2.2.sldf = 1) := by
  refine ⟨?_, rfl, rfl, rfl, rfl, rfl, rfl, (waitOnBusy_frame inp w).2.1,
    (writeConfig_frame inp c w).2.1, (setStrongPullup_frame inp w).2.1,
    (clearStrongPullup_frame inp w).2.1, (wireReset_frame inp w).2.1,
    (wireWriteByte_frame inp d p w).2.1, (wireWriteBytes_frame inp l p w).2.1,
    (wireReadByte_frame inp w).2.1, (wireWriteBit_frame inp d p w).2.1,
    (wireReadBit_frame inp w).2.1, (wireSkip_frame inp w).2.1,
    (wireSelect_frame inp rom w).2.1, ?_⟩
  · intro h
    simp [wireSearch, h]
  · by_cases h0 : w.sldf ≠ 0
    · left
      simp [wireSearch, h0]
    · by_cases hr : (wireReset inp w).1 = false
      · left
        simp only [wireSearch, if_neg h0, if_pos hr]
        exact (wireReset_frame inp w).2.1
      · rcases hs : (searchRun inp w).1 with _ | lz
        · left
          simp only [wireSearch, if_neg h0, if_neg hr, hs]
          exact (searchRun_frame inp w).2
        · by_cases hlz : lz = 0
          · right
            subst hlz
            simp [wireSearch, if_neg h0, if_neg hr, hs]
          · left
            simp only [wireSearch, if_neg h0, if_neg hr, hs, if_neg hlz]
            exact (searchRun_frame inp w).2

/-! ## Search-pass bookkeeping: claims C2, C3 and C10 -/

theorem dirForce_congr (sld : Nat) (a b : List Nat) (q : Nat)
    (h : bitOf a q = bitOf b q) : dirForce sld a q = dirForce sld b q := by
  unfold dirForce
  rw [h]

theorem getLastD_filter_step (P : Nat → Bool) (i f lz : Nat) :
    ((List.range' i (f + 1)).filter P).getLastD lz =
      ((List.range' (i + 1) f).filter P).getLastD (if P i then i else lz) := by
  rw [List.range'_succ, List.filter_cons]
  by_cases h : P i = true
  · rw [if_pos h, if_pos h, List.getLastD_cons]
  · rw [if_neg h, if_neg h]

theorem abortAt_false_iff (s : Nat) :
    abortAt s = false ↔
      ¬ (s &&& DS2482_STATUS_SBR ≠ 0 ∧ s &&& DS2482_STATUS_TSB ≠ 0) := by
  unfold abortAt
  constructor
  · intro h hc
    rcases hc with ⟨h1, h2⟩
    simp [h1, h2] at h
  · intro h
    by_cases h1 : s &&& DS2482_STATUS_SBR = 0
    · simp [h1]
    · by_cases h2 : s &&& DS2482_STATUS_TSB = 0
      · simp [h2]
      · exact absurd ⟨h1, h2⟩ h

theorem discAt_true_iff (s : Nat) :
    discAt s = true ↔
      (s &&& DS2482_STATUS_SBR = 0 ∧ s &&& DS2482_STATUS_TSB = 0 ∧
       s &&& DS2482_STATUS_DIR = 0) := by
  unfold discAt
  simp [Bool.and_eq_true, and_assoc]


set_option maxHeartbeats 4000000 in
theorem searchLoop_complete (inp : Nat → Nat) (hnb : NB inp) (p0 : Nat) :
    ∀ (fuel i lz : Nat) (w : W),
      w.pos = p0 + 2 * i →
      w.addr.length = 8 →
      (∀ q, i ≤ q → q < i + fuel → abortAt (statusAt inp p0 q) = false) →
      (searchLoop inp fuel i lz w).1 =
        some (((List.range' i fuel).filter
          (fun q => discAt (statusAt inp p0 q))).getLastD lz) ∧
      (searchLoop inp fuel i lz w).2.pos = w.pos + 2 * fuel ∧
      (searchLoop inp fuel i lz w).2.addr.length = 8 ∧
      (∀ q, i + fuel ≤ q →
        bitOf (searchLoop inp fuel i lz w).2.addr q = bitOf w.addr q) ∧
      (∃ t, (searchLoop inp fuel i lz w).2.tr = w.tr ++ t ∧
        tripletsOf t = (List.range' i fuel).map
          (fun q => if dirForce w.sld w.addr q ≠ 0 then 128 else 0)) := by
  intro fuel
  induction fuel with
  | zero =>
    intro i lz w hpos hlen _
    refine ⟨by simp [searchLoop], by simp [searchLoop],
      by simpa [searchLoop] using hlen,
      fun q _ => by simp [searchLoop], ⟨[], by simp [searchLoop], by simp [tripletsOf]⟩⟩
  | succ fuel ih =>
    intro i lz w hpos hlen hab
    have hs : statusAt inp p0 i = inp (w.pos + 1) % 256 := by
      unfold statusAt
      rw [hpos]
    have habi : abortAt (inp (w.pos + 1) % 256) = false := by
      rw [← hs]
      exact hab i (Nat.le_refl i) (by omega)
    have hnoab := (abortAt_false_iff _).1 habi
    rw [searchLoop_succ, tripletStep_nb inp hnb i w]
    dsimp only
    rw [if_neg hnoab]
    have hPif : (if inp (w.pos + 1) % 256 &&& DS2482_STATUS_SBR = 0 ∧
          inp (w.pos + 1) % 256 &&& DS2482_STATUS_TSB = 0 ∧
          inp (w.pos + 1) % 256 &&& DS2482_STATUS_DIR = 0 then i else lz) =
        (if discAt (statusAt inp p0 i) = true then i else lz) := by
      rw [hs]
      by_cases hd : inp (w.pos + 1) % 256 &&& DS2482_STATUS_SBR = 0 ∧
          inp (w.pos + 1) % 256 &&& DS2482_STATUS_TSB = 0 ∧
          inp (w.pos + 1) % 256 &&& DS2482_STATUS_DIR = 0
      · rw [if_pos hd, if_pos ((discAt_true_iff _).2 hd)]
      · rw [if_neg hd, if_neg (fun hx => hd ((discAt_true_iff _).1 hx))]
    rw [hPif]
    have key : ∀ (a' : List Nat),
        a'.length = 8 →
        (∀ q, q ≠ i → bitOf a' q = bitOf w.addr q) →
        (searchLoop inp fuel (i + 1)
            (if discAt (statusAt inp p0 i) = true then i else lz)
            { w with
              addr := a',
              buf := [],
              pos := w.pos + 2,
              tr := w.tr ++ [Ev.cmd [DS2482_COMMAND_SRP, DS2482_POINTER_STATUS],
                Ev.rd (inp w.pos % 256),
                Ev.cmd [DS2482_COMMAND_TRIPLET,
                  if dirForce w.sld w.addr i ≠ 0 then 128 else 0],
                Ev.cmd [DS2482_COMMAND_SRP, DS2482_POINTER_STATUS],
                Ev.rd (inp (w.pos + 1) % 256)] }).1 =
          some (((List.range' i (fuel + 1)).filter
            (fun q => discAt (statusAt inp p0 q))).getLastD lz) ∧
        (searchLoop inp fuel (i + 1)
            (if discAt (statusAt inp p0 i) = true then i else lz)
            { w with
              addr := a',
              buf := [],
              pos := w.pos + 2,
              tr := w.tr ++ [Ev.cmd [DS2482_COMMAND_SRP, DS2482_POINTER_STATUS],
                Ev.rd (inp w.pos % 256),
                Ev.cmd [DS2482_COMMAND_TRIPLET,
                  if dirForce w.sld w.addr i ≠ 0 then 128 else 0],
                Ev.cmd [DS2482_COMMAND_SRP, DS2482_POINTER_STATUS],
                Ev.rd (inp (w.pos + 1) % 256)] }).2.pos = w.pos + 2 * (fuel + 1) ∧
        (searchLoop inp fuel (i + 1)
            (if discAt (statusAt inp p0 i) = true then i else lz)
            { w with
              addr := a',
              buf := [],
              pos := w.pos + 2,
              tr := w.tr ++ [Ev.cmd [DS2482_COMMAND_SRP, DS2482_POINTER_STATUS],
                Ev.rd (inp w.pos % 256),
                Ev.cmd [DS2482_COMMAND_TRIPLET,
                  if dirForce w.sld w.addr i ≠ 0 then 128 else 0],
                Ev.cmd [DS2482_COMMAND_SRP, DS2482_POINTER_STATUS],
                Ev.rd (inp (w.pos + 1) % 256)] }).2.addr.length = 8 ∧
        (∀ q, i + (fuel + 1) ≤ q →
          bitOf (searchLoop inp fuel (i + 1)
            (if discAt (statusAt inp p0 i) = true then i else lz)
            { w with
              addr := a',
              buf := [],
              pos := w.pos + 2,
              tr := w.tr ++ [Ev.cmd [DS2482_COMMAND_SRP, DS2482_POINTER_STATUS],
                Ev.rd (inp w.pos % 256),
                Ev.cmd [DS2482_COMMAND_TRIPLET,
                  if dirForce w.sld w.addr i ≠ 0 then 128 else 0],
                Ev.cmd [DS2482_COMMAND_SRP, DS2482_POINTER_STATUS],
                Ev.rd (inp (w.pos + 1) % 256)] }).2.addr q = bitOf w.addr q) ∧
        (∃ t, (searchLoop inp fuel (i + 1)
            (if discAt (statusAt inp p0 i) = true then i else lz)
            { w with
              addr := a',
              buf := [],
              pos := w.pos + 2,
              tr := w.tr ++ [Ev.cmd [DS2482_COMMAND_SRP, DS2482_POINTER_STATUS],
                Ev.rd (inp w.pos % 256),
                Ev.cmd [DS2482_COMMAND_TRIPLET,
                  if dirForce w.sld w.addr i ≠ 0 then 128 else 0],
                Ev.cmd [DS2482_COMMAND_SRP, DS2482_POINTER_STATUS],
                Ev.rd (inp (w.pos + 1) % 256)] }).2.tr = w.tr ++ t ∧
          tripletsOf t = (List.range' i (fuel + 1)).map
            (fun q => if dirForce w.sld w.addr q ≠ 0 then 128 else 0)) := by
      intro a' hlen' hbits'
      obtain ⟨k1, k2, k3, k4, k5⟩ := ih (i + 1)
        (if discAt (statusAt inp p0 i) = true then i else lz)
        { w with
          addr := a',
          buf := [],
          pos := w.pos + 2,
          tr := w.tr ++ [Ev.cmd [DS2482_COMMAND_SRP, DS2482_POINTER_STATUS],
            Ev.rd (inp w.pos % 256),
            Ev.cmd [DS2482_COMMAND_TRIPLET,
              if dirForce w.sld w.addr i ≠ 0 then 128 else 0],
            Ev.cmd [DS2482_COMMAND_SRP, DS2482_POINTER_STATUS],
            Ev.rd (inp (w.pos + 1) % 256)] }
        (by simp only []; omega) hlen'
        (fun q hq1 hq2 => hab q (by omega) (by omega))
      refine ⟨?_, ?_, k3, ?_, ?_⟩
      · rw [k1, getLastD_filter_step]
      · rw [k2]
        simp only []
        omega
      · intro q hq
        rw [k4 q (by omega)]
        exact hbits' q (by omega)
      · obtain ⟨t, ht1, ht2⟩ := k5
        refine ⟨[Ev.cmd [DS2482_COMMAND_SRP, DS2482_POINTER_STATUS],
          Ev.rd (inp w.pos % 256),
          Ev.cmd [DS2482_COMMAND_TRIPLET,
            if dirForce w.sld w.addr i ≠ 0 then 128 else 0],
          Ev.cmd [DS2482_COMMAND_SRP, DS2482_POINTER_STATUS],
          Ev.rd (inp (w.pos + 1) % 256)] ++ t, ?_, ?_⟩
        · rw [ht1]
          simp [List.append_assoc]
        · rw [tripletsOf_append, ht2, List.range'_succ, List.map_cons]
          have hhead : tripletsOf [Ev.cmd [DS2482_COMMAND_SRP, DS2482_POINTER_STATUS],
              Ev.rd (inp w.pos % 256),
              Ev.cmd [DS2482_COMMAND_TRIPLET,
                if dirForce w.sld w.addr i ≠ 0 then 128 else 0],
              Ev.cmd [DS2482_COMMAND_SRP, DS2482_POINTER_STATUS],
              Ev.rd (inp (w.pos + 1) % 256)] =
              [if dirForce w.sld w.addr i ≠ 0 then 128 else 0] := by
            simp [tripletsOf, DS2482_COMMAND_SRP, DS2482_COMMAND_TRIPLET,
              DS2482_POINTER_STATUS]
          rw [hhead]
          have htail : (List.range' (i + 1) fuel).map
              (fun q => if dirForce w.sld a' q ≠ 0 then 128 else 0) =
              (List.range' (i + 1) fuel).map
              (fun q => if dirForce w.sld w.addr q ≠ 0 then 128 else 0) := by
            apply List.map_congr_left
            intro q hq
            have hqi : q ≠ i := by
              have := (List.mem_range'_1.1 hq).1
              omega
            rw [dirForce_congr w.sld a' w.addr q (hbits' q hqi)]
          rw [htail]
          rfl
    by_cases hdir : inp (w.pos + 1) % 256 &&& DS2482_STATUS_DIR ≠ 0
    · rw [if_pos hdir]
      exact key (setBit w.addr i) ((length_setBit w.addr i).trans hlen)
        (fun q hq => bitOf_setBit_ne w.addr i q (Ne.symm hq))
    · rw [if_neg hdir]
      exact key (clearBit w.addr i) ((length_clearBit w.addr i).trans hlen)
        (fun q hq => bitOf_clearBit_ne w.addr i q (Ne.symm hq))


theorem abortAt_true_iff (s : Nat) :
    abortAt s = true ↔
      (s &&& DS2482_STATUS_SBR ≠ 0 ∧ s &&& DS2482_STATUS_TSB ≠ 0) := by
  unfold abortAt
  simp [Bool.and_eq_true, bne_iff_ne]

set_option maxHeartbeats 4000000 in
theorem searchLoop_abort (inp : Nat → Nat) (hnb : NB inp) (p0 : Nat) :
    ∀ (fuel i lz k : Nat) (w : W),
      w.pos = p0 + 2 * i →
      w.addr.length = 8 →
      i ≤ k → k < i + fuel →
      abortAt (statusAt inp p0 k) = true →
      (∀ q, i ≤ q → q < k → abortAt (statusAt inp p0 q) = false) →
      (searchLoop inp fuel i lz w).1 = none ∧
      (∀ q, k ≤ q →
        bitOf (searchLoop inp fuel i lz w).2.addr q = bitOf w.addr q) := by
  intro fuel
  induction fuel with
  | zero =>
    intro i lz k w _ _ hik hkf _ _
    exact absurd hkf (by omega)
  | succ fuel ih =>
    intro i lz k w hpos hlen hik hkf habk habq
    rw [searchLoop_succ, tripletStep_nb inp hnb i w]
    dsimp only
    by_cases hk : k = i
    · have hs : statusAt inp p0 k = inp (w.pos + 1) % 256 := by
        unfold statusAt
        rw [hpos, hk]
      rw [hs] at habk
      have hab2 := (abortAt_true_iff _).1 habk
      rw [if_pos hab2]
      exact ⟨rfl, fun q _ => rfl⟩
    · have hs : statusAt inp p0 i = inp (w.pos + 1) % 256 := by
        unfold statusAt
        rw [hpos]
      have habi : abortAt (inp (w.pos + 1) % 256) = false := by
        rw [← hs]
        exact habq i (Nat.le_refl i) (by omega)
      have hnoab := (abortAt_false_iff _).1 habi
      rw [if_neg hnoab]
      have hik2 : i + 1 ≤ k := by omega
      by_cases hdir : inp (w.pos + 1) % 256 &&& DS2482_STATUS_DIR ≠ 0
      · rw [if_pos hdir]
        obtain ⟨j1, j2⟩ := ih (i + 1)
          (if inp (w.pos + 1) % 256 &&& DS2482_STATUS_SBR = 0 ∧
              inp (w.pos + 1) % 256 &&& DS2482_STATUS_TSB = 0 ∧
              inp (w.pos + 1) % 256 &&& DS2482_STATUS_DIR = 0 then i else lz)
          k
          { w with
            addr := setBit w.addr i,
            buf := [],
            pos := w.pos + 2,
            tr := w.tr ++ [Ev.cmd [DS2482_COMMAND_SRP, DS2482_POINTER_STATUS],
              Ev.rd (inp w.pos % 256),
              Ev.cmd [DS2482_COMMAND_TRIPLET,
                if dirForce w.sld w.addr i ≠ 0 then 128 else 0],
              Ev.cmd [DS2482_COMMAND_SRP, DS2482_POINTER_STATUS],
              Ev.rd (inp (w.pos + 1) % 256)] }
          (by simp only []; omega) ((length_setBit w.addr i).trans hlen)
          hik2 (by omega) habk (fun q hq1 hq2 => habq q (by omega) hq2)
        refine ⟨j1, fun q hq => ?_⟩
        rw [j2 q hq]
        exact bitOf_setBit_ne w.addr i q (by omega)
      · rw [if_neg hdir]
        obtain ⟨j1, j2⟩ := ih (i + 1)
          (if inp (w.pos + 1) % 256 &&& DS2482_STATUS_SBR = 0 ∧
              inp (w.pos + 1) % 256 &&& DS2482_STATUS_TSB = 0 ∧
              inp (w.pos + 1) % 256 &&& DS2482_STATUS_DIR = 0 then i else lz)
          k
          { w with
            addr := clearBit w.addr i,
            buf := [],
            pos := w.pos + 2,
            tr := w.tr ++ [Ev.cmd [DS2482_COMMAND_SRP, DS2482_POINTER_STATUS],
              Ev.rd (inp w.pos % 256),
              Ev.cmd [DS2482_COMMAND_TRIPLET,
                if dirForce w.sld w.addr i ≠ 0 then 128 else 0],
              Ev.cmd [DS2482_COMMAND_SRP, DS2482_POINTER_STATUS],
              Ev.rd (inp (w.pos + 1) % 256)] }
          (by simp only []; omega) ((length_clearBit w.addr i).trans hlen)
          hik2 (by omega) habk (fun q hq1 hq2 => habq q (by omega) hq2)
        refine ⟨j1, fun q hq => ?_⟩
        rw [j2 q hq]
        exact bitOf_clearBit_ne w.addr i q (by omega)


theorem waitOnBusy_tripletsOf (inp : Nat → Nat) (x : W) :
    tripletsOf (waitOnBusy inp x).2.tr = tripletsOf x.tr := by
  obtain ⟨t, h1, h2⟩ := waitOnBusy_tr inp x
  rw [h1, tripletsOf_append,
    tripletsOf_nil_of_benign t (fun e he => statusPollEv_benign e (h2 e he)),
    List.append_nil]

theorem wireWriteByte0_tr (inp : Nat → Nat) (d : Nat) (x : W) :
    (wireWriteByte inp d 0 x).tr =
      (waitOnBusy inp x).2.tr ++ [Ev.cmd [DS2482_COMMAND_WRITEBYTE, d % 256]] := by
  simp [wireWriteByte, endT, writeByte, beginT, DS2482_COMMAND_WRITEBYTE]

theorem preSearch_tr (inp : Nat → Nat) (w : W) :
    ∃ t, (wireWriteByte inp WIRE_COMMAND_SEARCH 0
        (waitOnBusy inp (wireReset inp w).2).2).tr = w.tr ++ t ∧
      tripletsOf t = [] := by
  obtain ⟨A, B, C, h, hA, hB, hC⟩ := wireReset_tr inp w
  obtain ⟨t2, h2, h2b⟩ := waitOnBusy_tr inp (wireReset inp w).2
  obtain ⟨t3, h3, h3b⟩ := waitOnBusy_tr inp (waitOnBusy inp (wireReset inp w).2).2
  refine ⟨(A ++ (Ev.cmd [DS2482_COMMAND_WRITECONFIG, configPayload 0] ::
      (B ++ (Ev.cmd [DS2482_COMMAND_RESETWIRE] :: C)))) ++ t2 ++ t3 ++
      [Ev.cmd [DS2482_COMMAND_WRITEBYTE, WIRE_COMMAND_SEARCH % 256]], ?_, ?_⟩
  · rw [wireWriteByte0_tr, h3, h2, h]
    simp [List.append_assoc]
  · have hAn := tripletsOf_nil_of_benign A hA
    have hBn := tripletsOf_nil_of_benign B hB
    have hCn := tripletsOf_nil_of_benign C hC
    have ht2n := tripletsOf_nil_of_benign t2 (fun e he => statusPollEv_benign e (h2b e he))
    have ht3n := tripletsOf_nil_of_benign t3 (fun e he => statusPollEv_benign e (h3b e he))
    rw [tripletsOf_append, tripletsOf_append, tripletsOf_append, tripletsOf_append,
      hAn, ht2n, ht3n]
    simp [tripletsOf, tripletsOf_append, hBn, hCn, DS2482_COMMAND_WRITECONFIG,
      DS2482_COMMAND_TRIPLET, DS2482_COMMAND_RESETWIRE, DS2482_COMMAND_WRITEBYTE]

theorem preSearch_pos (inp : Nat → Nat) (hnb : NB inp) (w : W) :
    (wireWriteByte inp WIRE_COMMAND_SEARCH 0
      (waitOnBusy inp (wireReset inp w).2).2).pos = w.pos + 8 := by
  rw [wireWriteByte_pos0, waitOnBusy_pos_nb inp hnb, waitOnBusy_pos_nb inp hnb,
    wireReset_pos_nb inp hnb]

theorem preSearch_frame (inp : Nat → Nat) (w : W) :
    (wireWriteByte inp WIRE_COMMAND_SEARCH 0
        (waitOnBusy inp (wireReset inp w).2).2).sld = w.sld ∧
    (wireWriteByte inp WIRE_COMMAND_SEARCH 0
        (waitOnBusy inp (wireReset inp w).2).2).addr = w.addr := by
  obtain ⟨a1, _, a3⟩ := wireReset_frame inp w
  obtain ⟨b1, _, b3⟩ := waitOnBusy_frame inp (wireReset inp w).2
  obtain ⟨c1, _, c3⟩ := wireWriteByte_frame inp WIRE_COMMAND_SEARCH 0
    (waitOnBusy inp (wireReset inp w).2).2
  exact ⟨c1.trans (b1.trans a1), c3.trans (b3.trans a3)⟩

theorem wireSearch_entry (inp : Nat → Nat) (hnb : NB inp) (a : List Nat) (w : W)
    (hflag : w.sldf = 0)
    (hppd : inp (w.pos + 5) % 256 &&& DS2482_STATUS_PPD ≠ 0) :
    wireSearch inp a w =
      (match (searchRun inp w).1 with
       | none => (0, a, (searchRun inp w).2)
       | some last_zero =>
         (1, (List.range 8).map (fun i =>
            (if last_zero = 0 then
              { { (searchRun inp w).2 with sld := last_zero } with sldf := 1 }
             else { (searchRun inp w).2 with sld := last_zero }).addr.getD i 0),
          if last_zero = 0 then
            { { (searchRun inp w).2 with sld := last_zero } with sldf := 1 }
          else { (searchRun inp w).2 with sld := last_zero })) := by
  have hc1 : ¬ (w.sldf ≠ 0) := by simp [hflag]
  have hc2 : ¬ ((wireReset inp w).1 = false) := by
    rw [wireReset_fst_nb inp hnb w, if_pos hppd]
    simp
  simp only [wireSearch, if_neg hc1, if_neg hc2]
  try rfl


set_option maxHeartbeats 4000000 in
/-- C2 (amended): in a completed 64-bit search pass (presence detected, last-device
flag clear, no aborting triplet status), wireSearch returns 1 and records in
searchLastDiscrepancy the last bit position whose triplet status had the sampled
bit, its complement and the chosen direction all clear (0 if no such position
occurred), but it sets searchLastDeviceFlag exactly when that recorded position
is 0 - which happens both when no discrepancy position occurred and when the
only remaining discrepancy position is bit 0, so the flag is not equivalent to
no position having occurred. -/
theorem c2_amended_last_discrepancy (inp : Nat → Nat) (a : List Nat) (w : W)
    (hnb : NB inp) (hlen : w.addr.length = 8) (hflag : w.sldf = 0)
    (hppd : inp (w.pos + 5) % 256 &&& DS2482_STATUS_PPD ≠ 0)
    (hab : ∀ j, j < 64 → abortAt (statusAt inp (w.pos + 8) j) = false) :
    (wireSearch inp a w).1 = 1 ∧
    (wireSearch inp a w).2.2.sld =
      ((List.range 64).filter
        (fun j => discAt (statusAt inp (w.pos + 8) j))).getLastD 0 ∧
    (wireSearch inp a w).2.2.sldf =
      (if ((List.range 64).filter
          (fun j => discAt (statusAt inp (w.pos + 8) j))).getLastD 0 = 0
       then 1 else 0) := by
  obtain ⟨k1, k2, k3, k4, k5⟩ := searchLoop_complete inp hnb (w.pos + 8) 64 0 0
    (wireWriteByte inp WIRE_COMMAND_SEARCH 0 (waitOnBusy inp (wireReset inp w).2).2)
    (by rw [preSearch_pos inp hnb w])
    (by rw [(preSearch_frame inp w).2]; exact hlen)
    (fun q h0 h64 => hab q (by omega))
  have hfst : (searchRun inp w).1 = some (((List.range' 0 64).filter
      (fun q => discAt (statusAt inp (w.pos + 8) q))).getLastD 0) := k1
  rw [wireSearch_entry inp hnb a w hflag hppd, hfst]
  dsimp only
  rw [List.range_eq_range']
  refine ⟨rfl, ?_, ?_⟩
  · rw [apply_ite W.sld]
    dsimp only
    rw [ite_self]
  · rw [apply_ite W.sldf]
    dsimp only
    rw [(searchRun_frame inp w).2, hflag]


set_option maxHeartbeats 4000000 in
/-- C3: over a completed search pass, the 1-Wire triplet commands sent carry, at
each bit position i from 0 to 63, the payload byte 0x80 exactly when the forced
direction is nonzero and 0x00 otherwise, where the forced direction is the
previously recorded bit i of the search address when i is below
searchLastDiscrepancy, 1 at searchLastDiscrepancy, and 0 above it (dirForce). -/
theorem c3_search_direction_and_payload (inp : Nat → Nat) (a : List Nat) (w : W)
    (hnb : NB inp) (hlen : w.addr.length = 8) (hflag : w.sldf = 0)
    (hppd : inp (w.pos + 5) % 256 &&& DS2482_STATUS_PPD ≠ 0)
    (hab : ∀ j, j < 64 → abortAt (statusAt inp (w.pos + 8) j) = false) :
    ∃ t, (wireSearch inp a w).2.2.tr = w.tr ++ t ∧
      tripletsOf t = (List.range 64).map
        (fun i => if dirForce w.sld w.addr i ≠ 0 then 128 else 0) := by
  obtain ⟨k1, k2, k3, k4, k5⟩ := searchLoop_complete inp hnb (w.pos + 8) 64 0 0
    (wireWriteByte inp WIRE_COMMAND_SEARCH 0 (waitOnBusy inp (wireReset inp w).2).2)
    (by rw [preSearch_pos inp hnb w])
    (by rw [(preSearch_frame inp w).2]; exact hlen)
    (fun q h0 h64 => hab q (by omega))
  obtain ⟨t1, ht1, ht1e⟩ := preSearch_tr inp w
  rw [(preSearch_frame inp w).1, (preSearch_frame inp w).2] at k5
  obtain ⟨t2, ht2, ht2e⟩ := k5
  have hfst : (searchRun inp w).1 = some (((List.range' 0 64).filter
      (fun q => discAt (statusAt inp (w.pos + 8) q))).getLastD 0) := k1
  rw [wireSearch_entry inp hnb a w hflag hppd, hfst]
  dsimp only
  refine ⟨t1 ++ t2, ?_, ?_⟩
  · rw [apply_ite W.tr]
    dsimp only
    rw [ite_self]
    show (searchRun inp w).2.tr = w.tr ++ (t1 ++ t2)
    have h2 : (searchRun inp w).2.tr =
        (wireWriteByte inp WIRE_COMMAND_SEARCH 0
          (waitOnBusy inp (wireReset inp w).2).2).tr ++ t2 := ht2
    rw [h2, ht1, List.append_assoc]
  · rw [tripletsOf_append, ht1e, ht2e, List.range_eq_range', List.nil_append]

set_option maxHeartbeats 4000000 in
/-- C10: when a triplet status with both the sampled bit and its complement set
appears at bit position k of a pass, wireSearch returns 0, hands back the
caller address buffer unchanged, leaves searchLastDiscrepancy and
searchLastDeviceFlag at their pre-call values, and no internal search-address
bit at position k or above is modified; only already-processed positions below
k may have been overwritten. -/
theorem c10_abort_preserves_state (inp : Nat → Nat) (a : List Nat) (w : W) (k : Nat)
    (hnb : NB inp) (hlen : w.addr.length = 8) (hflag : w.sldf = 0)
    (hppd : inp (w.pos + 5) % 256 &&& DS2482_STATUS_PPD ≠ 0)
    (hk : k < 64) (habk : abortAt (statusAt inp (w.pos + 8) k) = true)
    (habq : ∀ j, j < k → abortAt (statusAt inp (w.pos + 8) j) = false) :
    (wireSearch inp a w).1 = 0 ∧ (wireSearch inp a w).2.1 = a ∧
    (wireSearch inp a w).2.2.sld = w.sld ∧
    (wireSearch inp a w).2.2.sldf = w.sldf ∧
    ∀ q, k ≤ q →
      bitOf (wireSearch inp a w).2.2.addr q = bitOf w.addr q := by
  obtain ⟨j1, j2⟩ := searchLoop_abort inp hnb (w.pos + 8) 64 0 0 k
    (wireWriteByte inp WIRE_COMMAND_SEARCH 0 (waitOnBusy inp (wireReset inp w).2).2)
    (by rw [preSearch_pos inp hnb w])
    (by rw [(preSearch_frame inp w).2]; exact hlen)
    (Nat.zero_le k) (by omega) habk
    (fun q h0 hq => habq q hq)
  have hfst : (searchRun inp w).1 = none := j1
  rw [wireSearch_entry inp hnb a w hflag hppd, hfst]
  dsimp only
  refine ⟨rfl, rfl, (searchRun_frame inp w).1, (searchRun_frame inp w).2, ?_⟩
  intro q hq
  have h2 : bitOf (searchRun inp w).2.addr q =
      bitOf (wireWriteByte inp WIRE_COMMAND_SEARCH 0
        (waitOnBusy inp (wireReset inp w).2).2).addr q := j2 q hq
  rw [show (searchRun inp w).2.addr = (searchRun inp w).2.addr from rfl]
  rw [h2, (preSearch_frame inp w).2]

theorem nb_discZeroInp : NB discZeroInp := by
  intro k
  unfold discZeroInp
  split
  · decide
  · split
    · decide
    · decide

theorem nb_discTwoFiveInp : NB discTwoFiveInp := by
  intro k
  unfold discTwoFiveInp
  split
  · decide
  · split
    · decide
    · split
      · decide
      · decide

theorem nb_allOnesInp : NB allOnesInp := by
  intro k
  unfold allOnesInp
  split
  · split
    · decide
    · decide
  · decide

theorem nb_abortThreeInp : NB abortThreeInp := by
  intro k
  unfold abortThreeInp
  split
  · decide
  · split
    · decide
    · split
      · decide
      · decide

/-- Counterexample to C2 as stated: on the bridge discZeroInp the pass completes
with result 1 and a genuine-discrepancy triplet status does occur (at bit
position 0), yet searchLastDeviceFlag is set - refuting the claim that the
flag is set if and only if no such position occurred. -/
theorem c2_counterexample_flag_at_bit_zero :
    (wireSearch discZeroInp (List.replicate 8 0) W0).1 = 1 ∧
    (wireSearch discZeroInp (List.replicate 8 0) W0).2.2.sldf = 1 ∧
    discAt (statusAt discZeroInp (W0.pos + 8) 0) = true := by
  decide

/-- Witness for the amended C2 on a concrete run: discrepancy statuses at bit
positions 2 and 5 yield result 1, searchLastDiscrepancy 5 and flag clear. -/
theorem c2_amended_witness :
    NB discTwoFiveInp ∧
    (wireSearch discTwoFiveInp (List.replicate 8 0) W0).1 = 1 ∧
    (wireSearch discTwoFiveInp (List.replicate 8 0) W0).2.2.sld = 5 ∧
    (wireSearch discTwoFiveInp (List.replicate 8 0) W0).2.2.sldf = 0 := by
  have h := c2_amended_last_discrepancy discTwoFiveInp (List.replicate 8 0) W0
    nb_discTwoFiveInp (by decide) rfl (by decide) (by decide)
  exact ⟨nb_discTwoFiveInp, h.1, h.2.1.trans (by decide), h.2.2.trans (by decide)⟩

/-- Witness for C3 on a concrete run with every triplet status reading 0x80. -/
theorem c3_search_witness :
    NB allOnesInp ∧
    ∃ t, (wireSearch allOnesInp (List.replicate 8 0) W0).2.2.tr = W0.tr ++ t ∧
      tripletsOf t = (List.range 64).map
        (fun i => if dirForce W0.sld W0.addr i ≠ 0 then 128 else 0) := by
  refine ⟨nb_allOnesInp, ?_⟩
  exact c3_search_direction_and_payload allOnesInp (List.replicate 8 0) W0
    nb_allOnesInp (by decide) rfl (by decide) (by decide)

/-- Witness for C10 on a concrete run whose triplet status at bit position 3
has both the sampled bit and its complement set. -/
theorem c10_abort_witness :
    NB abortThreeInp ∧ 3 < 64 ∧
    abortAt (statusAt abortThreeInp (W0.pos + 8) 3) = true ∧
    (wireSearch abortThreeInp (List.replicate 8 7) W0).1 = 0 ∧
    (wireSearch abortThreeInp (List.replicate 8 7) W0).2.1 = List.replicate 8 7 ∧
    (wireSearch abortThreeInp (List.replicate 8 7) W0).2.2.sld = W0.sld ∧
    (wireSearch abortThreeInp (List.replicate 8 7) W0).2.2.sldf = W0.sldf ∧
    bitOf (wireSearch abortThreeInp (List.replicate 8 7) W0).2.2.addr 10 =
      bitOf W0.addr 10 := by
  have h := c10_abort_preserves_state abortThreeInp (List.replicate 8 7) W0 3
    nb_abortThreeInp (by decide) rfl (by decide) (by decide) (by decide)
    (by decide)
  exact ⟨nb_abortThreeInp, by decide, by decide, h.1, h.2.1, h.2.2.1, h.2.2.2.1,
    h.2.2.2.2 10 (by decide)⟩

end OneWireSpec
